import Mathlib

/-!
Verification of the rt2800 userspace radio driver
(`libwifiuserspace/rt2800usb/rt2800lib.c`).

The definitions below are a shallow embedding of the driver's firmware
validation, radio lifecycle guard, link tuner, EEPROM validation/repair,
RX filter sweep, bandwidth filter calibration and channel-configuration
dispatch.  Machine integers are modelled as `Nat` (with explicit `% 256`
/ `% 65536` where C truncation matters), registers as total maps
`Nat → Nat`, and hardware effects as explicit state passing.

Identifiers follow the C sources where Lean allows it.
-/

set_option maxRecDepth 40000

/-! ## Chip identity

Chip family (`rt2x00dev->chip.rt`) and RF subtype (`rt2x00dev->chip.rf`)
codes.  The numeric constants live in `rt2800.h` / `rt2x00.h`, which are
not part of the extracted sources; the dispatch logic only compares them
for equality, so they are modelled as inductive identities, with a
catch-all constructor for codes the driver never names. -/

inductive RTChip where
  | rt2860 | rt2872 | rt3070 | rt3071 | rt3090 | rt3290 | rt3352 | rt3390
  | rt3572 | rt3593 | rt3883 | rt5350 | rt5390 | rt5392 | rt5592 | rt6352
  | otherRT (code : Nat)
deriving DecidableEq

inductive RfId where
  | rf2020 | rf2720 | rf2750 | rf2820 | rf2850
  | rf3020 | rf3021 | rf3022 | rf3052 | rf3053 | rf3070 | rf3290 | rf3320
  | rf3322 | rf3853 | rf5350 | rf5360 | rf5362 | rf5370 | rf5372 | rf5390
  | rf5392 | rf5592 | rf7620
  | otherRf (code : Nat)
deriving DecidableEq

/-! ## Firmware validation (`rt2800_check_firmware`, `rt2800_check_firmware_crc`)

`crc_ccitt` is declared in `kernel/crc_ccit.h`; its table
(`crc_ccitt_table`, in the missing `crc_ccit.c`) is
modelled from the spec: the standard CRC-CCITT table for the
bit-reversed polynomial 0x8408, each entry being eight LSB-first
polynomial-division rounds of the index byte. `crc_ccitt_byte` mirrors
the header: `(crc >> 8) ^ crc_ccitt_table[(crc ^ c) & 0xff]`. -/

def crcCcittRound (c : Nat) : Nat := if c % 2 == 1 then (c / 2) ^^^ 0x8408 else c / 2

def crc_ccitt_table (i : Nat) : Nat :=
  crcCcittRound (crcCcittRound (crcCcittRound (crcCcittRound
    (crcCcittRound (crcCcittRound (crcCcittRound (crcCcittRound (i % 256))))))))

def crc_ccitt_byte (crc c : Nat) : Nat := (crc / 256) ^^^ crc_ccitt_table ((crc ^^^ c) % 256)

def crc_ccitt (crc : Nat) (buffer : List Nat) : Nat := buffer.foldl crc_ccitt_byte crc

/-- Modelled from the spec: `swab16` (16-bit byte swap) comes from the
missing `kernel/endian.h`. -/
def swab16 (x : Nat) : Nat := (x % 256) * 256 + (x / 256) % 256

/-- Firmware validation result (`FW_OK` / `FW_BAD_LENGTH` / `FW_BAD_VERSION`
/ `FW_BAD_CRC` from the missing `rt2x00.h`; only their distinctness
matters). -/
inductive FwRes where
  | ok | badLength | badVersion | badCrc
deriving DecidableEq

/-- `rt2800_check_firmware_crc`: the last two bytes of the chunk are the
stored CRC (high byte first); the CRC-CCITT of the rest, byte-swapped,
must match. -/
def rt2800_check_firmware_crc (data : List Nat) (len : Nat) : Bool :=
  let fw_crc := (data.getD (len - 2) 0 % 256) * 256 + data.getD (len - 1) 0 % 256
  let crc := swab16 (crc_ccitt 0xffff (data.take (len - 2)))
  fw_crc == crc

/-- The `while (offset < len)` per-chunk CRC loop of `rt2800_check_firmware`,
with explicit fuel (the loop advances `offset` by `fw_len ≥ 4096` each
pass, so `data.length + 1` passes always suffice). -/
def fwChunkLoop (data : List Nat) (fw_len : Nat) : Nat → Nat → FwRes
  | _, 0 => .ok
  | offset, fuel + 1 =>
    if offset < data.length then
      if rt2800_check_firmware_crc (data.drop offset) fw_len then
        fwChunkLoop data fw_len (offset + fw_len) fuel
      else .badCrc
    else .ok

/-- `rt2800_check_firmware`: length check (4 KiB base unit for USB and
RT3290, 8 KiB otherwise, multiples allowed), the USB wrong-version check,
then the per-chunk CRC loop. -/
def rt2800_check_firmware (isUsb : Bool) (rt : RTChip) (data : List Nat) : FwRes :=
  let len := data.length
  let fw_len := if isUsb || rt == RTChip.rt3290 then 4096 else 8192
  let multiple := true
  if len ≠ fw_len ∧ (¬multiple ∨ len % fw_len ≠ 0) then .badLength
  else if isUsb = true ∧ rt ≠ .rt2860 ∧ rt ≠ .rt2872 ∧ rt ≠ .rt3070 ∧ len / fw_len = 1 then
    .badVersion
  else fwChunkLoop data fw_len 0 (len + 1)

/-! ## Radio lifecycle guard (`rt2x00lib_enable_radio`, `rt2x00lib_disable_radio`)

The device handle's `DEVICE_STATE_ENABLED_RADIO` flag plus the calls the
driver makes into `rt2x00dev->ops->lib->set_device_state`; each such call
is recorded as an event.  The `STATE_RADIO_ON` call returns a status
supplied by the hardware (an oracle parameter here). -/

inductive RadioEvent where
  | radioOn | radioIrqOn | radioOff | radioIrqOff
deriving DecidableEq

structure RadioDev where
  enabledRadio : Bool
deriving DecidableEq

/-- `rt2x00lib_enable_radio`: returns `(status, new device, hardware calls)`.
`radioOnStatus` is the status the hardware returns from
`set_device_state(STATE_RADIO_ON)`. -/
def rt2x00lib_enable_radio (dev : RadioDev) (radioOnStatus : Int) :
    Int × RadioDev × List RadioEvent :=
  if dev.enabledRadio then (0, dev, [])
  else if radioOnStatus ≠ 0 then (radioOnStatus, dev, [.radioOn])
  else (0, { dev with enabledRadio := true }, [.radioOn, .radioIrqOn])

/-- `rt2x00lib_disable_radio`: returns `(new device, hardware calls)`. -/
def rt2x00lib_disable_radio (dev : RadioDev) : RadioDev × List RadioEvent :=
  if dev.enabledRadio then
    ({ dev with enabledRadio := false }, [.radioOff, .radioIrqOff])
  else (dev, [])

/-! ## Link tuner reset (`rt2800_reset_tuner`, `rt2800_set_vgc`,
`rt2800_get_default_vgc`) -/

inductive Band where
  | band2ghz | band5ghz
deriving DecidableEq

structure VgcDev where
  rt : RTChip
  curr_band : Band
  lna_gain : Nat
  ht40 : Bool
deriving DecidableEq

structure LinkQual where
  vgc_level : Nat
  vgc_level_reg : Nat
  rssi : Int
deriving DecidableEq

/-- `rt2800_get_default_vgc`: chip-family-and-band-specific baseline gain
(`vgc` is a `uint8_t`, hence `% 256`). -/
def rt2800_get_default_vgc (d : VgcDev) : Nat :=
  if d.curr_band = .band2ghz then
    if d.rt = .rt3070 ∨ d.rt = .rt3071 ∨ d.rt = .rt3090 ∨ d.rt = .rt3290 ∨
       d.rt = .rt3390 ∨ d.rt = .rt3572 ∨ d.rt = .rt3593 ∨ d.rt = .rt5390 ∨
       d.rt = .rt5392 ∨ d.rt = .rt5592 ∨ d.rt = .rt6352 then
      (0x1c + 2 * d.lna_gain) % 256
    else (0x2e + d.lna_gain) % 256
  else
    if d.rt = .rt3593 ∨ d.rt = .rt3883 then (0x20 + d.lna_gain * 5 / 3) % 256
    else if d.rt = .rt5592 then (0x24 + 2 * d.lna_gain) % 256
    else if ¬d.ht40 then (0x32 + d.lna_gain * 5 / 3) % 256
    else (0x3a + d.lna_gain * 5 / 3) % 256

/-- A hardware write issued by `rt2800_set_vgc`. -/
inductive VgcWrite where
  | bbpWithRxChain (reg val : Nat)
  | bbpW (reg val : Nat)
deriving DecidableEq

/-- `rt2800_set_vgc`: write-suppressed gain-register programming — the
hardware writes happen only when `qual->vgc_level != vgc_level`. -/
def rt2800_set_vgc (d : VgcDev) (q : LinkQual) (vgc_level : Nat) :
    LinkQual × List VgcWrite :=
  if q.vgc_level ≠ vgc_level then
    let ws :=
      if d.rt = .rt3572 ∨ d.rt = .rt3593 ∨ d.rt = .rt3883 then
        [VgcWrite.bbpWithRxChain 66 vgc_level]
      else if d.rt = .rt5592 then
        [VgcWrite.bbpW 83 (if q.rssi > -65 then 0x4a else 0x7a),
         VgcWrite.bbpWithRxChain 66 vgc_level]
      else [VgcWrite.bbpW 66 vgc_level]
    ({ q with vgc_level := vgc_level, vgc_level_reg := vgc_level }, ws)
  else (q, [])

/-- `rt2800_reset_tuner`: program the baseline gain through
`rt2800_set_vgc`. -/
def rt2800_reset_tuner (d : VgcDev) (q : LinkQual) : LinkQual × List VgcWrite :=
  rt2800_set_vgc d q (rt2800_get_default_vgc d)

/-! ## Channel configuration dispatch (`rt2800_config_channel`)

The `switch (rt2x00dev->chip.rf)` that selects the per-variant tuning
procedure.  The procedure actually invoked is the datum of interest; the
C function returns `void`, so there is no error result to model. -/

inductive ChannelVariantProc where
  | rf3xxxP | rf3052P | rf3053P | rf3290P | rf3322P | rf3853P
  | rf53xxP | rf55xxP | rf7620P | rf2xxxP
deriving DecidableEq

/-- The RF-subtype dispatch of `rt2800_config_channel`: which
`rt2800_config_channel_rf*` procedure runs for a given RF identity. -/
def rt2800_config_channel_dispatch : RfId → ChannelVariantProc
  | .rf2020 | .rf3020 | .rf3021 | .rf3022 | .rf3320 => .rf3xxxP
  | .rf3052 => .rf3052P
  | .rf3053 => .rf3053P
  | .rf3290 => .rf3290P
  | .rf3322 => .rf3322P
  | .rf3853 => .rf3853P
  | .rf3070 | .rf5350 | .rf5360 | .rf5362 | .rf5370 | .rf5372 | .rf5390
  | .rf5392 => .rf53xxP
  | .rf5592 => .rf55xxP
  | .rf7620 => .rf7620P
  | _ => .rf2xxxP

/-! ## Register field access

`rt2x00_set_field8/16` and `rt2x00_get_field8/16` live in the missing
`rt2x00reg.h`.  Modelled from the spec: a field is a contiguous bit
range `[shift, shift+width)` of a register word; `get` extracts it,
`set` replaces it leaving the other bits alone.  Rendered with `/`, `%`
and `*` by powers of two, which is what the C mask-and-shift macros
compute on words. -/

def rt2x00_get_field (shift width w : Nat) : Nat := w / 2 ^ shift % 2 ^ width

def rt2x00_set_field (shift width w v : Nat) : Nat :=
  w % 2 ^ shift + v % 2 ^ width * 2 ^ shift + w / 2 ^ (shift + width) * 2 ^ (shift + width)

/-! ## EEPROM validation/repair (`rt2800_validate_eeprom`)

The EEPROM image is addressed by symbolic field names (the word-offset
maps are chip-family-specific), so it is represented as one named word
per field the repair touches.  Field bit layouts are modelled from the
spec (the `EEPROM_*` `FIELD16` masks live in the missing `rt2800.h`):
`NIC_CONF0` packs RXPATH/TXPATH/RF_TYPE in nibbles 0/1/2; `FREQ` packs
the offset in the low byte and LED mode (7 bits) + LED polarity (1 bit)
in the high byte; the RSSI words pack an offset in the low byte and an
LNA gain in the high byte; `LNA` carries the band-A0 reference gain in
its high byte; `EXT_LNA2` carries A1 in the low and A2 in the high
byte.  `RF2820` is RF-type code 1. -/

structure EepromImage where
  nicConf0 : Nat
  nicConf1 : Nat
  freq : Nat
  ledAgConf : Nat
  ledActConf : Nat
  ledPolarity : Nat
  lna : Nat
  rssiBg : Nat
  rssiBg2 : Nat
  rssiA : Nat
  rssiA2 : Nat
  extLna2 : Nat
deriving DecidableEq

/-- The `EEPROM_NIC_CONF0` repair: an all-ones word gets default antenna
counts and RF type; on RT2860/RT2872 an RX path count above 2 is clamped
to 2. -/
def repair_nic_conf0 (isRt28 : Bool) (w : Nat) : Nat :=
  if w = 0xffff then
    rt2x00_set_field 8 4 (rt2x00_set_field 4 4 (rt2x00_set_field 0 4 w 2) 1) 1
  else if isRt28 then
    (if rt2x00_get_field 0 4 w > 2 then rt2x00_set_field 0 4 w 2 else w)
  else w

/-- The `EEPROM_NIC_CONF1` repair: an all-ones word has every
capability field reset to 0. -/
def repair_nic_conf1 (w : Nat) : Nat :=
  if w = 0xffff then
    rt2x00_set_field 15 1 (rt2x00_set_field 14 1 (rt2x00_set_field 13 1
      (rt2x00_set_field 11 2 (rt2x00_set_field 10 1 (rt2x00_set_field 9 1
        (rt2x00_set_field 8 1 (rt2x00_set_field 7 1 (rt2x00_set_field 6 1
          (rt2x00_set_field 5 1 (rt2x00_set_field 4 1 (rt2x00_set_field 3 1
            (rt2x00_set_field 2 1 (rt2x00_set_field 1 1
              (rt2x00_set_field 0 1 w 0) 0) 0) 0) 0) 0) 0) 0) 0) 0) 0) 0) 0) 0) 0
  else w

/-- Low-byte half of the `EEPROM_FREQ` repair: an all-ones frequency
offset byte is reset to 0. -/
def repair_freq_lo (w : Nat) : Nat :=
  if w % 256 = 0xff then rt2x00_set_field 0 8 w 0 else w

/-- The full `EEPROM_FREQ` repair: after the offset repair, an all-ones
high byte gets LED mode `LED_MODE_TXRX_ACTIVITY` (code 1, from the
missing `rt2x00.h`) and polarity 0. -/
def repair_freq (w : Nat) : Nat :=
  if repair_freq_lo w / 256 % 256 = 0xff then
    rt2x00_set_field 15 1 (rt2x00_set_field 8 7 (repair_freq_lo w) 1) 0
  else repair_freq_lo w

/-- An `EEPROM_RSSI_BG` / `EEPROM_RSSI_A` repair: both RSSI offset bytes
outside ±10 are clamped to 0 (the C compares the unsigned field value,
so every value above 10 is clamped). -/
def repair_rssi_offsets (w : Nat) : Nat :=
  let w1 := if rt2x00_get_field 0 8 w > 10 then rt2x00_set_field 0 8 w 0 else w
  if rt2x00_get_field 8 8 w1 > 10 then rt2x00_set_field 8 8 w1 0 else w1

/-- An `EEPROM_RSSI_BG2` / `EEPROM_RSSI_A2` repair (the two blocks are
textually identical in the source): clamp the offset byte, then — except
on RT3593/RT3883 — backfill a sentinel (0x00/0xff) LNA gain byte with
the reference gain `d`. -/
def repair_rssi_lna (ext : Bool) (d w : Nat) : Nat :=
  let w1 := if rt2x00_get_field 0 8 w > 10 then rt2x00_set_field 0 8 w 0 else w
  if ext then w1
  else if rt2x00_get_field 8 8 w1 = 0x00 ∨ rt2x00_get_field 8 8 w1 = 0xff then
    rt2x00_set_field 8 8 w1 d
  else w1

/-- The `EEPROM_EXT_LNA2` repair (RT3593/RT3883 only).  The second
branch reproduces the source exactly: it tests the A2 field (high byte)
but writes the A1 field (low byte). -/
def repair_ext_lna2 (d w : Nat) : Nat :=
  let w1 :=
    if rt2x00_get_field 0 8 w = 0x00 ∨ rt2x00_get_field 0 8 w = 0xff then
      rt2x00_set_field 0 8 w d
    else w
  if rt2x00_get_field 8 8 w1 = 0x00 ∨ rt2x00_get_field 8 8 w1 = 0xff then
    rt2x00_set_field 0 8 w1 d
  else w1

/-- `rt2800_validate_eeprom` (the in-memory repair part; the raw read
precedes it and the function then returns 0).  `default_lna_gain` is the
band-A0 gain of the never-repaired `EEPROM_LNA` word. -/
def rt2800_validate_eeprom (rt : RTChip) (e : EepromImage) : EepromImage :=
  let isRt28 := decide (rt = RTChip.rt2860 ∨ rt = RTChip.rt2872)
  let ext := decide (rt = RTChip.rt3593 ∨ rt = RTChip.rt3883)
  let default_lna_gain := rt2x00_get_field 8 8 e.lna
  let ledFire := repair_freq_lo e.freq / 256 % 256 = 0xff
  { e with
    nicConf0 := repair_nic_conf0 isRt28 e.nicConf0
    nicConf1 := repair_nic_conf1 e.nicConf1
    freq := repair_freq e.freq
    ledAgConf := if ledFire then 0x5555 else e.ledAgConf
    ledActConf := if ledFire then 0x2221 else e.ledActConf
    ledPolarity := if ledFire then 0xa9f8 else e.ledPolarity
    rssiBg := repair_rssi_offsets e.rssiBg
    rssiBg2 := repair_rssi_lna ext default_lna_gain e.rssiBg2
    rssiA := repair_rssi_offsets e.rssiA
    rssiA2 := repair_rssi_lna ext default_lna_gain e.rssiA2
    extLna2 := if ext then repair_ext_lna2 default_lna_gain e.extLna2 else e.extLna2 }

/-! ## RX filter sweep (`rt2800_init_rx_filter`)

Registers are memory-like except BBP 55, the calibration readout: each
read of it yields the next value of a measurement oracle `env` (reduced
to a byte).  Field masks modelled from the missing `rt2800.h`:
`BBP4_BANDWIDTH` bits 3–4, `RFCSR31_RX_H20M` bit 5,
`RFCSR22_BASEBAND_LOOPBACK` bit 0. -/

structure RxSt where
  bbp : Nat → Nat
  rf : Nat → Nat
  idx : Nat

def rxBbpRead (env : Nat → Nat) (s : RxSt) (r : Nat) : Nat × RxSt :=
  if r = 55 then (env s.idx % 256, { s with idx := s.idx + 1 }) else (s.bbp r, s)

def rxBbpWrite (s : RxSt) (r v : Nat) : RxSt :=
  { s with bbp := Function.update s.bbp r v }

def rxRfWrite (s : RxSt) (r v : Nat) : RxSt :=
  { s with rf := Function.update s.rf r v }

/-- The passband capture loop: up to 100 times, fire the test tone and
read BBP 55, stopping at the first non-zero response.  If every read is
zero the loop exhausts with `passband = 0`. -/
def rxPassLoop (env : Nat → Nat) : RxSt → Nat → Nat × RxSt
  | s, 0 => (0, s)
  | s, fuel + 1 =>
    let s1 := rxBbpWrite s 25 0x90
    let (p, s2) := rxBbpRead env s1 55
    if p ≠ 0 then (p, s2) else rxPassLoop env s2 fuel

/-- The stopband sweep loop: up to 100 times, read a stopband response;
while `passband − stopband ≤ filter_target` (C `int` arithmetic)
increment `rfcsr24` (a `uint8_t`), count exact-hit steps in `overtuned`,
program the new value and continue; stop once the gap exceeds the
target.  Returns `(rfcsr24, overtuned, state)`. -/
def rxStopLoop (env : Nat → Nat) (passband ft : Nat) :
    RxSt → Nat → Nat → Nat → Nat × Nat × RxSt
  | s, r24, over, 0 => (r24, over, s)
  | s, r24, over, fuel + 1 =>
    let s1 := rxBbpWrite s 25 0x90
    let (stopband, s2) := rxBbpRead env s1 55
    if (passband : Int) - (stopband : Int) ≤ (ft : Int) then
      let r24n := (r24 + 1) % 256
      let overn := over + (if (passband : Int) - (stopband : Int) = (ft : Int) then 1 else 0)
      rxStopLoop env passband ft (rxRfWrite s2 24 r24n) r24n overn fuel
    else (r24, over, s2)

/-- The register programming `rt2800_init_rx_filter` performs before the
passband capture: start value into RFCSR 24, bandwidth into BBP 4,
`RFCSR31_RX_H20M`, baseband loopback on, passband test-tone frequency
into BBP 24. -/
def rxFilterSetup (s0 : RxSt) (bw40 : Bool) : RxSt :=
  let rfcsr24 : Nat := if bw40 then 0x27 else 0x07
  let s := rxRfWrite s0 24 rfcsr24
  let s := rxBbpWrite s 4 (rt2x00_set_field 3 2 (s.bbp 4) (if bw40 then 2 else 0))
  let s := rxRfWrite s 31 (rt2x00_set_field 5 1 (s.rf 31) (if bw40 then 1 else 0))
  let s := rxRfWrite s 22 (rt2x00_set_field 0 1 (s.rf 22) 1)
  rxBbpWrite s 24 0

/-- `rt2800_init_rx_filter`: program the start value and loopback mode,
capture the passband response, sweep the stopband, then step the result
back by one exactly when some step hit the target, program it and
return it. -/
def rt2800_init_rx_filter (env : Nat → Nat) (s0 : RxSt) (bw40 : Bool)
    (filter_target : Nat) : Nat × RxSt :=
  let rfcsr24 : Nat := if bw40 then 0x27 else 0x07
  let pr := rxPassLoop env (rxFilterSetup s0 bw40) 100
  let s := rxBbpWrite pr.2 24 0x06
  let res := rxStopLoop env pr.1 filter_target s rfcsr24 0 100
  let r24r := (res.1 + 256 - (if res.2.1 ≠ 0 then 1 else 0)) % 256
  (r24r, rxRfWrite res.2.2 24 r24r)

/-! ## Bandwidth filter calibration (`rt2800_bw_filter_calibration`)

Device state for the calibration: MAC registers, BBP registers, the
DCOC register window (BBP 158 is the index latch, BBP 159 the data
window — `rt2800_bbp_dcoc_read/write` go through them), RF bank 5, the
per-device calibration cache (`drv_data->{tx,rx}_calibration_bw{20,40}`)
and the `CONFIG_CHANNEL_HT40` flag.  MAC register addresses
`RF_CONTROL0`/`RF_BYPASS0` are modelled from the spec as two distinct
word addresses (their numeric values live in the missing `rt2800.h`). -/

def RF_CONTROL0 : Nat := 0x0518

def RF_BYPASS0 : Nat := 0x051c

structure CalState where
  mac : Nat → Nat
  bbp : Nat → Nat
  dcoc : Nat → Nat
  rfb5 : Nat → Nat
  txCal20 : Nat
  txCal40 : Nat
  rxCal20 : Nat
  rxCal40 : Nat
  ht40 : Bool

def calBbpRead (s : CalState) (r : Nat) : Nat :=
  if r = 159 then s.dcoc (s.bbp 158) else s.bbp r

def calBbpWrite (s : CalState) (r v : Nat) : CalState :=
  if r = 159 then { s with dcoc := Function.update s.dcoc (s.bbp 158) v }
  else { s with bbp := Function.update s.bbp r v }

/-- `rt2800_bbp_dcoc_write`: write the index to BBP 158, the value to
BBP 159. -/
def rt2800_bbp_dcoc_write (s : CalState) (r v : Nat) : CalState :=
  calBbpWrite (calBbpWrite s 158 r) 159 v

/-- `rt2800_bbp_dcoc_read`: write the index to BBP 158, read BBP 159. -/
def rt2800_bbp_dcoc_read (s : CalState) (r : Nat) : Nat × CalState :=
  let s1 := calBbpWrite s 158 r
  (calBbpRead s1 159, s1)

def calRfbWrite (s : CalState) (r v : Nat) : CalState :=
  { s with rfb5 := Function.update s.rfb5 r v }

def calMacWrite (s : CalState) (r v : Nat) : CalState :=
  { s with mac := Function.update s.mac r v }

/-- `rt2800_bbp_core_soft_reset`: set the BBP 21 reset bit, optionally
reprogram the BBP 4 bandwidth field, clear the reset bit. -/
def rt2800_bbp_core_soft_reset (s : CalState) (set_bw is_ht40 : Bool) : CalState :=
  let s := calBbpWrite s 21 (calBbpRead s 21 ||| 0x1)
  let s :=
    if set_bw then
      calBbpWrite s 4 (rt2x00_set_field 3 2 (calBbpRead s 4) (if is_ht40 then 2 else 0))
    else s
  calBbpWrite s 21 (calBbpRead s 21 &&& 0xfe)

/-- `rt2800_rf_lp_config`: put the RF front end into loopback (TX or RX
flavour). -/
def rt2800_rf_lp_config (s : CalState) (btxcal : Bool) : CalState :=
  let s := calMacWrite s RF_CONTROL0 (if btxcal then 0x04 else 0x02)
  let s := calMacWrite s RF_BYPASS0 0x06
  let s := calRfbWrite s 17 (s.rfb5 17 ||| 0x80)
  if btxcal then
    let s := calRfbWrite s 18 0xC1
    let s := calRfbWrite s 19 0x20
    let s := calRfbWrite s 20 0x02
    let s := calRfbWrite s 3 ((s.rfb5 3 &&& 0xC0) ||| 0x3F)
    let s := calRfbWrite s 4 ((s.rfb5 4 &&& 0xC0) ||| 0x3F)
    calRfbWrite s 5 0x31
  else
    let s := calRfbWrite s 18 0xF1
    let s := calRfbWrite s 19 0x18
    let s := calRfbWrite s 20 0x02
    let s := calRfbWrite s 3 ((s.rfb5 3 &&& 0xC0) ||| 0x34)
    calRfbWrite s 4 ((s.rfb5 4 &&& 0xC0) ||| 0x34)

/-- `rt2800_lp_tx_filter_bw_cal`: trigger the calibration (DCOC 0 :=
0x82), poll BBP 159 (reads only — no state change in the register
model), then read the signed 7-bit result from DCOC 0x39. -/
def rt2800_lp_tx_filter_bw_cal (s : CalState) : Int × CalState :=
  let s := rt2800_bbp_dcoc_write s 0 0x82
  let vs := rt2800_bbp_dcoc_read s 0x39
  let c := vs.1 &&& 0x7F
  (if c ≥ 0x40 then (c : Int) - 128 else (c : Int), vs.2)

/-- One register programming step of the `do_cal` loop: write the
candidate gain-compensation value into the low 7 bits of RF bank-5
registers 58/59 (TX) or 6/7 (RX). -/
def doCalProgram (s : CalState) (btxcal : Bool) (agc : Nat) : CalState :=
  if btxcal then
    let s := calRfbWrite s 58 ((s.rfb5 58 &&& 0x80) ||| agc)
    calRfbWrite s 59 ((s.rfb5 59 &&& 0x80) ||| agc)
  else
    let s := calRfbWrite s 6 ((s.rfb5 6 &&& 0x80) ||| agc)
    calRfbWrite s 7 ((s.rfb5 7 &&& 0x80) ||| agc)

/-- The `do_cal` search loop: program the candidate, soft-reset, measure,
and either reset the candidate to 0 (out-of-range start / saturated
miss), try the next candidate (`goto do_cal`), or keep it.  The `goto`
is guarded by `agc < 0x3f`, so `0x40` fuel is exact; the fuel-exhausted
arm is unreachable.  Returns the state and the final candidate. -/
def doCalLoop (btxcal is_ht40 : Bool) (ftarget : Nat) (calInit : Int) :
    CalState → Nat → Nat → CalState × Nat
  | s, agc, 0 => (s, agc)
  | s, agc, fuel + 1 =>
    let s := doCalProgram s btxcal agc
    let s := rt2800_bbp_core_soft_reset s false is_ht40
    let cs := rt2800_lp_tx_filter_bw_cal s
    let cal_diff : Int := calInit - cs.1
    if (cal_diff > (ftarget : Int) ∧ agc = 0) ∨ (cal_diff < (ftarget : Int) ∧ agc = 0x3f) then
      (cs.2, 0)
    else if cal_diff ≤ (ftarget : Int) ∧ agc < 0x3f then
      doCalLoop btxcal is_ht40 ftarget calInit cs.2 (agc + 1) fuel
    else (cs.2, agc)

/-- One pass of the outer `do { ... } while (loop <= 1)` loop of the
calibration (`loopIdx` 0 = 20 MHz, 1 = 40 MHz): select the bandwidth and
target, program RF bank-5 register 8, soft-reset with bandwidth change,
configure loopback, zero the candidate registers, mask the DCOC 2 bits,
capture the reference readout, run the search and store its result into
the calibration cache field for this direction and bandwidth. -/
def calOuterIter (btxcal : Bool) (loopIdx : Nat) (s : CalState) : CalState :=
  let is_ht40 := loopIdx = 1
  let filter_target : Nat :=
    if loopIdx = 0 then (if btxcal then 0x09 else 0x27)
    else (if btxcal then 0x02 else 0x31)
  let s := calRfbWrite s 8
    (let v := s.rfb5 8 &&& 0xFB; if loopIdx = 1 then v ||| 0x4 else v)
  let s := rt2800_bbp_core_soft_reset s true is_ht40
  let s := rt2800_rf_lp_config s btxcal
  let s :=
    if btxcal then
      let s := calRfbWrite s 58 (s.rfb5 58 &&& 0x80)
      calRfbWrite s 59 (s.rfb5 59 &&& 0x80)
    else
      let s := calRfbWrite s 6 (s.rfb5 6 &&& 0x80)
      calRfbWrite s 7 (s.rfb5 7 &&& 0x80)
  let vs := rt2800_bbp_dcoc_read s 2
  let s := rt2800_bbp_dcoc_write vs.2 2 (vs.1 &&& 0xF9)
  let s := rt2800_bbp_core_soft_reset s false is_ht40
  let is2 := rt2800_lp_tx_filter_bw_cal s
  let vs2 := rt2800_bbp_dcoc_read is2.2 2
  let s := rt2800_bbp_dcoc_write vs2.2 2 (vs2.1 ||| 0x6)
  let r := doCalLoop btxcal is_ht40 filter_target is2.1 s 0 0x40
  if btxcal then
    (if loopIdx = 0 then { r.1 with txCal20 := r.2 } else { r.1 with txCal40 := r.2 })
  else
    (if loopIdx = 0 then { r.1 with rxCal20 := r.2 } else { r.1 with rxCal40 := r.2 })

/-- The register values `rt2800_bw_filter_calibration` saves at entry. -/
structure CalSaves where
  macControl0 : Nat
  macBypass0 : Nat
  b23 : Nat
  d0 : Nat
  d2 : Nat
  r00 : Nat
  r01 : Nat
  r03 : Nat
  r04 : Nat
  r05 : Nat
  r06 : Nat
  r07 : Nat
  r08 : Nat
  r17 : Nat
  r18 : Nat
  r19 : Nat
  r20 : Nat
  r37 : Nat
  r38 : Nat
  r39 : Nat
  r40 : Nat
  r41 : Nat
  r42 : Nat
  r43 : Nat
  r44 : Nat
  r45 : Nat
  r46 : Nat
  r58 : Nat
  r59 : Nat

/-- The entry save block (values as read from the entry state; the only
mutation the save block itself performs is on the BBP 158 index latch,
which the DCOC reads do not observe across these keys). -/
def calibSaves (s : CalState) : CalSaves :=
  { macControl0 := s.mac RF_CONTROL0
    macBypass0 := s.mac RF_BYPASS0
    b23 := s.bbp 23
    d0 := s.dcoc 0
    d2 := s.dcoc 2
    r00 := s.rfb5 0, r01 := s.rfb5 1, r03 := s.rfb5 3, r04 := s.rfb5 4
    r05 := s.rfb5 5, r06 := s.rfb5 6, r07 := s.rfb5 7, r08 := s.rfb5 8
    r17 := s.rfb5 17, r18 := s.rfb5 18, r19 := s.rfb5 19, r20 := s.rfb5 20
    r37 := s.rfb5 37, r38 := s.rfb5 38, r39 := s.rfb5 39, r40 := s.rfb5 40
    r41 := s.rfb5 41, r42 := s.rfb5 42, r43 := s.rfb5 43, r44 := s.rfb5 44
    r45 := s.rfb5 45, r46 := s.rfb5 46, r58 := s.rfb5 58, r59 := s.rfb5 59 }

/-- The pre-loop block and the two outer-loop passes (entered with the
BBP 158 latch as the save block left it). -/
def calibMiddle (btxcal : Bool) (s : CalState) : CalState :=
  let s := calRfbWrite s 0 (s.rfb5 0 ||| 0x3)
  let s := calRfbWrite s 1 (s.rfb5 1 ||| 0x1)
  let s := calRfbWrite s 0 ((s.rfb5 0 &&& 0xFC) ||| 0x1)
  let s := calBbpWrite s 23 ((calBbpRead s 23 &&& 0xE0) ||| 0x10)
  let s := calOuterIter btxcal 0 s
  calOuterIter btxcal 1 s

/-- The unconditional restore block at the end of the calibration, plus
the final BBP 4 bandwidth restore from the `CONFIG_CHANNEL_HT40` flag
and the MAC register restore. -/
def calibRestore (sv : CalSaves) (s : CalState) : CalState :=
  let s := calRfbWrite s 0 sv.r00
  let s := calRfbWrite s 1 sv.r01
  let s := calRfbWrite s 3 sv.r03
  let s := calRfbWrite s 4 sv.r04
  let s := calRfbWrite s 5 sv.r05
  let s := calRfbWrite s 6 sv.r06
  let s := calRfbWrite s 7 sv.r07
  let s := calRfbWrite s 8 sv.r08
  let s := calRfbWrite s 17 sv.r17
  let s := calRfbWrite s 18 sv.r18
  let s := calRfbWrite s 19 sv.r19
  let s := calRfbWrite s 20 sv.r20
  let s := calRfbWrite s 37 sv.r37
  let s := calRfbWrite s 38 sv.r38
  let s := calRfbWrite s 39 sv.r39
  let s := calRfbWrite s 40 sv.r40
  let s := calRfbWrite s 41 sv.r41
  let s := calRfbWrite s 42 sv.r42
  let s := calRfbWrite s 43 sv.r43
  let s := calRfbWrite s 44 sv.r44
  let s := calRfbWrite s 45 sv.r45
  let s := calRfbWrite s 46 sv.r46
  let s := calRfbWrite s 58 sv.r58
  let s := calRfbWrite s 59 sv.r59
  let s := calBbpWrite s 23 sv.b23
  let s := rt2800_bbp_dcoc_write s 0 sv.d0
  let s := rt2800_bbp_dcoc_write s 2 sv.d2
  let s := calBbpWrite s 4 (rt2x00_set_field 3 2 (calBbpRead s 4) (if s.ht40 then 2 else 0))
  let s := calMacWrite s RF_CONTROL0 sv.macControl0
  calMacWrite s RF_BYPASS0 sv.macBypass0

/-- `rt2800_bw_filter_calibration`: save, run the two calibration
passes, restore. -/
def rt2800_bw_filter_calibration (s0 : CalState) (btxcal : Bool) : CalState :=
  calibRestore (calibSaves s0)
    (calibMiddle btxcal (calBbpWrite (calBbpWrite s0 158 0) 158 2))

/-! ## Helper lemmas -/

theorem crc_ccitt_append (c : Nat) (l1 l2 : List Nat) :
    crc_ccitt c (l1 ++ l2) = crc_ccitt (crc_ccitt c l1) l2 := by
  simp [crc_ccitt, List.foldl_append]

theorem crc_ccitt_replicate_chunk (c v n : Nat)
    (h : crc_ccitt c (List.replicate 512 0) = v) :
    crc_ccitt c (List.replicate (512 + n) 0) = crc_ccitt v (List.replicate n 0) := by
  rw [List.replicate_add, crc_ccitt_append, h]

theorem fwChunkLoop_done (data : List Nat) (fl off fuel : Nat)
    (h : ¬ off < data.length) : fwChunkLoop data fl off fuel = .ok := by
  cases fuel <;> simp [fwChunkLoop, h]

theorem fwChunkLoop_step_ok (data : List Nat) (fl off fuel : Nat)
    (h : off < data.length)
    (hc : rt2800_check_firmware_crc (data.drop off) fl = true) :
    fwChunkLoop data fl off (fuel + 1) = fwChunkLoop data fl (off + fl) fuel := by
  simp [fwChunkLoop, h, hc]

theorem fwChunkLoop_step_bad (data : List Nat) (fl off fuel : Nat)
    (h : off < data.length)
    (hc : rt2800_check_firmware_crc (data.drop off) fl = false) :
    fwChunkLoop data fl off (fuel + 1) = .badCrc := by
  simp [fwChunkLoop, h, hc]

theorem fwChunkLoop_ne_badVersion (data : List Nat) (fl : Nat) :
    ∀ fuel off, fwChunkLoop data fl off fuel ≠ .badVersion := by
  intro fuel
  induction fuel with
  | zero => intro off; simp [fwChunkLoop]
  | succ n ih =>
    intro off
    simp only [fwChunkLoop]
    split
    · split
      · exact ih (off + fl)
      · simp
    · simp

/-! ## Claim C10 -/

/-- Claim C10: firmware validation accepts a zero-length image — for an
input of length 0, on every bus kind and chip family, the length check
passes (0 is a multiple of the base unit), the USB wrong-version check
passes (0 sub-images ≠ 1), the per-chunk CRC loop never runs, and the
result is `FW_OK`. -/
theorem c10_check_firmware_empty_ok (isUsb : Bool) (rt : RTChip) :
    rt2800_check_firmware isUsb rt [] = .ok := by
  cases h : (isUsb || rt == RTChip.rt3290) <;>
    simp [rt2800_check_firmware, h, fwChunkLoop]

/-! ## Claim C2 -/

/-- Claim C2: for a PCI-class chip family (non-USB, and not the RT3290
special case), a firmware image of exactly 8192 bytes whose trailing two
bytes are the byte-swapped CRC-CCITT of the preceding 8190 bytes
validates as `FW_OK`; truncated to 8191 bytes it yields
`FW_BAD_LENGTH`; with its last byte incremented (mod 256) it yields
`FW_BAD_CRC`. -/
theorem c2_fw_pci_crc_scenario (rt : RTChip) (payload : List Nat) (b0 b1 : Nat)
    (hrt : rt ≠ RTChip.rt3290) (hlen : payload.length = 8190) (_hb1 : b1 < 256)
    (hcrc : b0 % 256 * 256 + b1 % 256 = swab16 (crc_ccitt 0xffff payload)) :
    rt2800_check_firmware false rt (payload ++ [b0, b1]) = .ok ∧
    rt2800_check_firmware false rt ((payload ++ [b0, b1]).take 8191) = .badLength ∧
    rt2800_check_firmware false rt (payload ++ [b0, (b1 + 1) % 256]) = .badCrc := by
  have hbeq : (rt == RTChip.rt3290) = false := by simpa using hrt
  have htake : (payload ++ [b0, b1]).take 8190 = payload := List.take_left' hlen
  have htake' : (payload ++ [b0, (b1 + 1) % 256]).take 8190 = payload :=
    List.take_left' hlen
  have hget0 : (payload ++ [b0, b1]).getD 8190 0 = b0 := by
    rw [List.getD_eq_getElem?_getD, List.getElem?_append_right (by omega), hlen]
    simp
  have hget1 : (payload ++ [b0, b1]).getD 8191 0 = b1 := by
    rw [List.getD_eq_getElem?_getD, List.getElem?_append_right (by omega), hlen]
    simp
  have hget0' : (payload ++ [b0, (b1 + 1) % 256]).getD 8190 0 = b0 := by
    rw [List.getD_eq_getElem?_getD, List.getElem?_append_right (by omega), hlen]
    simp
  have hget1' : (payload ++ [b0, (b1 + 1) % 256]).getD 8191 0 = (b1 + 1) % 256 := by
    rw [List.getD_eq_getElem?_getD, List.getElem?_append_right (by omega), hlen]
    simp
  have hlen2 : (payload ++ [b0, b1]).length = 8192 := by simp [hlen]
  have hlen2' : (payload ++ [b0, (b1 + 1) % 256]).length = 8192 := by simp [hlen]
  refine ⟨?_, ?_, ?_⟩
  · have hcrcchunk :
        rt2800_check_firmware_crc ((payload ++ [b0, b1]).drop 0) 8192 = true := by
      simp only [List.drop_zero, rt2800_check_firmware_crc,
        show (8192 : Nat) - 2 = 8190 from rfl, show (8192 : Nat) - 1 = 8191 from rfl,
        hget0, hget1, htake, ← hcrc]
      simp
    have h1 : rt2800_check_firmware false rt (payload ++ [b0, b1]) =
        fwChunkLoop (payload ++ [b0, b1]) 8192 0 (8192 + 1) := by
      rw [rt2800_check_firmware]
      simp [hbeq, hlen2]
    rw [h1, fwChunkLoop_step_ok _ _ _ _ (by simp [hlen2]) hcrcchunk]
    exact fwChunkLoop_done _ _ _ _ (by simp [hlen2])
  · have hlen3 : ((payload ++ [b0, b1]).take 8191).length = 8191 := by simp [hlen]
    rw [rt2800_check_firmware]
    simp [hbeq, hlen3]
  · have hcrcchunk :
        rt2800_check_firmware_crc ((payload ++ [b0, (b1 + 1) % 256]).drop 0) 8192 =
          false := by
      simp only [List.drop_zero, rt2800_check_firmware_crc,
        show (8192 : Nat) - 2 = 8190 from rfl, show (8192 : Nat) - 1 = 8191 from rfl,
        hget0', hget1', htake', ← hcrc]
      simp only [beq_eq_false_iff_ne, ne_eq]
      omega
    have h1 : rt2800_check_firmware false rt (payload ++ [b0, (b1 + 1) % 256]) =
        fwChunkLoop (payload ++ [b0, (b1 + 1) % 256]) 8192 0 (8192 + 1) := by
      rw [rt2800_check_firmware]
      simp [hbeq, hlen2']
    rw [h1, fwChunkLoop_step_bad _ _ _ _ (by simp [hlen2']) hcrcchunk]

/-- Claim C2 witness: the scenario at a concrete image — 8190 zero bytes
followed by the byte-swapped CRC-CCITT bytes `0xCC 0x7E`.  The CRC of
the zero payload is evaluated in 512-byte blocks. -/
theorem c2_fw_pci_crc_scenario_witness :
    rt2800_check_firmware false RTChip.rt2860 (List.replicate 8190 0 ++ [0xCC, 0x7E]) =
      .ok ∧
    rt2800_check_firmware false RTChip.rt2860
      ((List.replicate 8190 0 ++ [0xCC, 0x7E]).take 8191) = .badLength ∧
    rt2800_check_firmware false RTChip.rt2860 (List.replicate 8190 0 ++ [0xCC, 0x7F]) =
      .badCrc := by
  have t01 : crc_ccitt 0xffff (List.replicate (512 + 7678) 0) =
      crc_ccitt 11368 (List.replicate 7678 0) :=
    crc_ccitt_replicate_chunk _ _ _ (by decide)
  have t02 : crc_ccitt 11368 (List.replicate (512 + 7166) 0) =
      crc_ccitt 63213 (List.replicate 7166 0) :=
    crc_ccitt_replicate_chunk _ _ _ (by decide)
  have t03 : crc_ccitt 63213 (List.replicate (512 + 6654) 0) =
      crc_ccitt 22087 (List.replicate 6654 0) :=
    crc_ccitt_replicate_chunk _ _ _ (by decide)
  have t04 : crc_ccitt 22087 (List.replicate (512 + 6142) 0) =
      crc_ccitt 8611 (List.replicate 6142 0) :=
    crc_ccitt_replicate_chunk _ _ _ (by decide)
  have t05 : crc_ccitt 8611 (List.replicate (512 + 5630) 0) =
      crc_ccitt 37589 (List.replicate 5630 0) :=
    crc_ccitt_replicate_chunk _ _ _ (by decide)
  have t06 : crc_ccitt 37589 (List.replicate (512 + 5118) 0) =
      crc_ccitt 59920 (List.replicate 5118 0) :=
    crc_ccitt_replicate_chunk _ _ _ (by decide)
  have t07 : crc_ccitt 59920 (List.replicate (512 + 4606) 0) =
      crc_ccitt 64602 (List.replicate 4606 0) :=
    crc_ccitt_replicate_chunk _ _ _ (by decide)
  have t08 : crc_ccitt 64602 (List.replicate (512 + 4094) 0) =
      crc_ccitt 64503 (List.replicate 4094 0) :=
    crc_ccitt_replicate_chunk _ _ _ (by decide)
  have t09 : crc_ccitt 64503 (List.replicate (512 + 3582) 0) =
      crc_ccitt 5684 (List.replicate 3582 0) :=
    crc_ccitt_replicate_chunk _ _ _ (by decide)
  have t10 : crc_ccitt 5684 (List.replicate (512 + 3070) 0) =
      crc_ccitt 65406 (List.replicate 3070 0) :=
    crc_ccitt_replicate_chunk _ _ _ (by decide)
  have t11 : crc_ccitt 65406 (List.replicate (512 + 2558) 0) =
      crc_ccitt 44843 (List.replicate 2558 0) :=
    crc_ccitt_replicate_chunk _ _ _ (by decide)
  have t12 : crc_ccitt 44843 (List.replicate (512 + 2046) 0) =
      crc_ccitt 38105 (List.replicate 2046 0) :=
    crc_ccitt_replicate_chunk _ _ _ (by decide)
  have t13 : crc_ccitt 38105 (List.replicate (512 + 1534) 0) =
      crc_ccitt 52578 (List.replicate 1534 0) :=
    crc_ccitt_replicate_chunk _ _ _ (by decide)
  have t14 : crc_ccitt 52578 (List.replicate (512 + 1022) 0) =
      crc_ccitt 29960 (List.replicate 1022 0) :=
    crc_ccitt_replicate_chunk _ _ _ (by decide)
  have t15 : crc_ccitt 29960 (List.replicate (512 + 510) 0) =
      crc_ccitt 32301 (List.replicate 510 0) :=
    crc_ccitt_replicate_chunk _ _ _ (by decide)
  have t16 : crc_ccitt 32301 (List.replicate 510 0) = 32460 := by decide
  have hcrc : (0xCC : Nat) % 256 * 256 + (0x7E : Nat) % 256 =
      swab16 (crc_ccitt 0xffff (List.replicate 8190 0)) := by
    norm_num at t01 t02 t03 t04 t05 t06 t07 t08 t09 t10 t11 t12 t13 t14 t15
    rw [show (8190 : Nat) = 8190 from rfl, t01, t02, t03, t04, t05, t06, t07, t08,
      t09, t10, t11, t12, t13, t14, t15, t16]
    decide
  have h := c2_fw_pci_crc_scenario RTChip.rt2860 (List.replicate 8190 0) 0xCC 0x7E
    (by decide) (List.length_replicate 8190 0) (by decide) hcrc
  have h127 : (0x7E + 1) % 256 = 0x7F := by norm_num
  rw [h127] at h
  exact h

/-! ## Claim C6 -/

/-- Claim C6 counterexample: a multi-image USB firmware file (8192 bytes
= two 4 KiB sub-images) is never rejected as `FW_BAD_VERSION` — neither
on a chip that needs an upper sub-image (RT5390) nor on one that does
not (RT2860).  The version check fires only when `len / fw_len == 1`,
i.e. on single-image files. -/
theorem c6_multi_image_counterexample :
    rt2800_check_firmware true RTChip.rt5390 (List.replicate 8192 0) ≠ .badVersion ∧
    rt2800_check_firmware true RTChip.rt2860 (List.replicate 8192 0) ≠ .badVersion := by
  constructor <;>
  · rw [rt2800_check_firmware]
    simp only [List.length_replicate]
    rw [if_neg (by norm_num), if_neg (by norm_num)]
    exact fwChunkLoop_ne_badVersion _ _ _ _

/-- Claim C6 amended: for a USB chip other than RT2860/RT2872/RT3070
(the chips whose revision needs one of the upper sub-images of a
concatenated firmware file), validation rejects a single-image file —
length exactly one 4 KiB base unit — as `FW_BAD_VERSION`; multi-image
files pass the version check (see the counterexample for the original
claim). -/
theorem c6_usb_single_image_bad_version (rt : RTChip) (data : List Nat)
    (h1 : rt ≠ RTChip.rt2860) (h2 : rt ≠ RTChip.rt2872) (h3 : rt ≠ RTChip.rt3070)
    (hlen : data.length = 4096) :
    rt2800_check_firmware true rt data = .badVersion := by
  rw [rt2800_check_firmware]
  simp [hlen, h1, h2, h3]

/-- Claim C6 witness: the amended claim at a concrete input — an RT5390
USB device with a 4096-byte image. -/
theorem c6_usb_single_image_bad_version_witness :
    rt2800_check_firmware true RTChip.rt5390 (List.replicate 4096 0) = .badVersion :=
  c6_usb_single_image_bad_version RTChip.rt5390 (List.replicate 4096 0)
    (by decide) (by decide) (by decide) (List.length_replicate 4096 0)

/-! ## Claim C3 -/

/-- Claim C3: the radio lifecycle guard — enabling while the
enabled-radio flag is set returns success immediately with no hardware
calls; across two consecutive enables (the first succeeding) the
bring-up `STATE_RADIO_ON` call happens exactly once; disabling a radio
that was never enabled performs no hardware access at all. -/
theorem c3_radio_lifecycle_guard (dev : RadioDev) (st1 st2 : Int) :
    (dev.enabledRadio = true → rt2x00lib_enable_radio dev st1 = (0, dev, [])) ∧
    (dev.enabledRadio = false → st1 = 0 →
      (rt2x00lib_enable_radio dev st1).1 = 0 ∧
      (rt2x00lib_enable_radio
        (rt2x00lib_enable_radio dev st1).2.1 st2).1 = 0 ∧
      (rt2x00lib_enable_radio
        (rt2x00lib_enable_radio dev st1).2.1 st2).2.2 = [] ∧
      ((rt2x00lib_enable_radio dev st1).2.2 ++
        (rt2x00lib_enable_radio
          (rt2x00lib_enable_radio dev st1).2.1 st2).2.2).count RadioEvent.radioOn = 1) ∧
    (dev.enabledRadio = false → rt2x00lib_disable_radio dev = (dev, [])) := by
  refine ⟨?_, ?_, ?_⟩
  · intro h
    simp [rt2x00lib_enable_radio, h]
  · intro h h1
    subst h1
    simp [rt2x00lib_enable_radio, h]
  · intro h
    simp [rt2x00lib_disable_radio, h]

/-- Claim C3 witness: the guard at concrete devices — an
already-enabled device, a fresh device enabled twice, and a fresh
device disabled without ever enabling. -/
theorem c3_radio_lifecycle_guard_witness :
    (rt2x00lib_enable_radio ⟨true⟩ 0 = (0, ⟨true⟩, [])) ∧
    ((rt2x00lib_enable_radio ⟨false⟩ 0).1 = 0 ∧
      (rt2x00lib_enable_radio (rt2x00lib_enable_radio ⟨false⟩ 0).2.1 0).1 = 0 ∧
      (rt2x00lib_enable_radio (rt2x00lib_enable_radio ⟨false⟩ 0).2.1 0).2.2 = [] ∧
      ((rt2x00lib_enable_radio ⟨false⟩ 0).2.2 ++
        (rt2x00lib_enable_radio
          (rt2x00lib_enable_radio ⟨false⟩ 0).2.1 0).2.2).count RadioEvent.radioOn = 1) ∧
    (rt2x00lib_disable_radio ⟨false⟩ = (⟨false⟩, [])) :=
  ⟨(c3_radio_lifecycle_guard ⟨true⟩ 0 0).1 rfl,
   (c3_radio_lifecycle_guard ⟨false⟩ 0 0).2.1 rfl rfl,
   (c3_radio_lifecycle_guard ⟨false⟩ 0 0).2.2 rfl⟩

/-! ## Claim C9 -/

/-- Claim C9 counterexample: `rt2800_reset_tuner` does not write
unconditionally — on an RT5390 in the 2.4 GHz band with `lna_gain = 0`
the computed baseline is 0x1c, and when the link-quality state already
holds 0x1c the call issues no hardware write at all. -/
theorem c9_reset_tuner_counterexample :
    (rt2800_reset_tuner ⟨RTChip.rt5390, Band.band2ghz, 0, false⟩
      ⟨0x1c, 0x1c, -70⟩).2 = [] := by
  decide

/-- Claim C9 amended: `rt2800_reset_tuner` computes the
chip-family-and-band-specific baseline and passes it to
`rt2800_set_vgc`, which programs gain register 66 with it only when it
differs from the currently-programmed level; when the level already
matches, no hardware write is performed. -/
theorem c9_reset_tuner_write_suppressed (d : VgcDev) (q : LinkQual) :
    (q.vgc_level ≠ rt2800_get_default_vgc d →
      (rt2800_reset_tuner d q).1.vgc_level = rt2800_get_default_vgc d ∧
      ∃ w ∈ (rt2800_reset_tuner d q).2,
        w = VgcWrite.bbpWithRxChain 66 (rt2800_get_default_vgc d) ∨
        w = VgcWrite.bbpW 66 (rt2800_get_default_vgc d)) ∧
    (q.vgc_level = rt2800_get_default_vgc d → rt2800_reset_tuner d q = (q, [])) := by
  constructor
  · intro h
    unfold rt2800_reset_tuner rt2800_set_vgc
    rw [if_pos h]
    refine ⟨rfl, ?_⟩
    split_ifs <;> simp
  · intro h
    unfold rt2800_reset_tuner rt2800_set_vgc
    rw [if_neg (by simp [h])]

/-- Claim C9 witness: the amended behaviour at concrete states — an
RT5390 whose programmed level 0 differs from the baseline 0x1c (a write
of 0x1c to register 66 is issued), and the same chip already at 0x1c
(no write). -/
theorem c9_reset_tuner_write_suppressed_witness :
    ((rt2800_reset_tuner ⟨RTChip.rt5390, Band.band2ghz, 0, false⟩ ⟨0, 0, -70⟩).1.vgc_level =
        rt2800_get_default_vgc ⟨RTChip.rt5390, Band.band2ghz, 0, false⟩ ∧
      ∃ w ∈ (rt2800_reset_tuner ⟨RTChip.rt5390, Band.band2ghz, 0, false⟩ ⟨0, 0, -70⟩).2,
        w = VgcWrite.bbpWithRxChain 66
          (rt2800_get_default_vgc ⟨RTChip.rt5390, Band.band2ghz, 0, false⟩) ∨
        w = VgcWrite.bbpW 66
          (rt2800_get_default_vgc ⟨RTChip.rt5390, Band.band2ghz, 0, false⟩)) ∧
    rt2800_reset_tuner ⟨RTChip.rt5390, Band.band2ghz, 0, false⟩ ⟨0x1c, 0x1c, -70⟩ =
      (⟨0x1c, 0x1c, -70⟩, []) :=
  ⟨(c9_reset_tuner_write_suppressed ⟨RTChip.rt5390, Band.band2ghz, 0, false⟩
      ⟨0, 0, -70⟩).1 (by decide),
   (c9_reset_tuner_write_suppressed ⟨RTChip.rt5390, Band.band2ghz, 0, false⟩
      ⟨0x1c, 0x1c, -70⟩).2 (by decide)⟩

/-! ## Claim C1 -/

/-- Claim C1 counterexample: an RF-subtype identity outside the
supported set is not reported as a configuration error —
`rt2800_config_channel` has no error result (it returns `void`) and its
dispatch `switch` falls through to the `default:` case, running the
RF2xxx variant's tuning procedure for the unknown identity 0x9999. -/
theorem c1_unknown_rf_runs_rf2xxx :
    rt2800_config_channel_dispatch (RfId.otherRf 0x9999) = ChannelVariantProc.rf2xxxP :=
  rfl

/-- Claim C1 amended: the dispatch is total with a silent default — every
RF identity outside the explicitly-cased set (including every unknown
code) is configured with the generic RF2xxx procedure, and no error is
reported (the function has no error path). -/
theorem c1_dispatch_default_fallback (n : Nat) :
    rt2800_config_channel_dispatch (RfId.otherRf n) = ChannelVariantProc.rf2xxxP ∧
    rt2800_config_channel_dispatch RfId.rf2820 = ChannelVariantProc.rf2xxxP ∧
    rt2800_config_channel_dispatch RfId.rf2850 = ChannelVariantProc.rf2xxxP ∧
    rt2800_config_channel_dispatch RfId.rf2720 = ChannelVariantProc.rf2xxxP ∧
    rt2800_config_channel_dispatch RfId.rf2750 = ChannelVariantProc.rf2xxxP :=
  ⟨rfl, rfl, rfl, rfl, rfl⟩


/-! ## Claim C5 helper lemmas: normal forms and idempotence of each
per-word repair -/

theorem repair_nic_conf0_eq (b : Bool) (w : Nat) :
    repair_nic_conf0 b w =
      if w = 0xffff then 0xf112
      else if b then
        (if rt2x00_get_field 0 4 w > 2 then rt2x00_set_field 0 4 w 2 else w)
      else w := by
  by_cases h : w = 0xffff
  · subst h
    simp only [repair_nic_conf0]
    norm_num [rt2x00_set_field]
  · simp [repair_nic_conf0, h]

theorem repair_nic_conf1_eq (w : Nat) :
    repair_nic_conf1 w = if w = 0xffff then 0 else w := by
  by_cases h : w = 0xffff
  · subst h
    simp only [repair_nic_conf1]
    norm_num [rt2x00_set_field]
  · simp [repair_nic_conf1, h]

theorem repair_nic_conf0_idem (b : Bool) (w : Nat) :
    repair_nic_conf0 b (repair_nic_conf0 b w) = repair_nic_conf0 b w := by
  cases b <;>
  · simp only [repair_nic_conf0_eq, rt2x00_set_field, rt2x00_get_field]
    norm_num
    split_ifs <;> omega

theorem repair_nic_conf1_idem (w : Nat) :
    repair_nic_conf1 (repair_nic_conf1 w) = repair_nic_conf1 w := by
  simp only [repair_nic_conf1_eq]
  split_ifs <;> omega

theorem repair_freq_idem (w : Nat) :
    repair_freq (repair_freq w) = repair_freq w := by
  simp only [repair_freq, repair_freq_lo, rt2x00_set_field, rt2x00_get_field]
  norm_num
  split_ifs <;> omega

theorem repair_freq_no_refire (w : Nat) :
    (repair_freq_lo (repair_freq w) / 256 % 256 = 0xff) = False := by
  refine eq_false ?_
  simp only [repair_freq, repair_freq_lo, rt2x00_set_field, rt2x00_get_field]
  norm_num
  split_ifs <;> omega

theorem repair_rssi_offsets_idem (w : Nat) :
    repair_rssi_offsets (repair_rssi_offsets w) = repair_rssi_offsets w := by
  simp only [repair_rssi_offsets, rt2x00_set_field, rt2x00_get_field]
  norm_num
  split_ifs <;> omega

theorem repair_rssi_lna_idem (ext : Bool) (d w : Nat) :
    repair_rssi_lna ext d (repair_rssi_lna ext d w) = repair_rssi_lna ext d w := by
  cases ext <;>
  · simp only [repair_rssi_lna, rt2x00_set_field, rt2x00_get_field]
    norm_num
    split_ifs <;> omega

theorem repair_ext_lna2_idem (d w : Nat) :
    repair_ext_lna2 d (repair_ext_lna2 d w) = repair_ext_lna2 d w := by
  simp only [repair_ext_lna2, rt2x00_set_field, rt2x00_get_field]
  norm_num
  split_ifs <;> omega

/-! ## Claim C5 -/

/-- Claim C5: EEPROM validation/repair is idempotent on the in-memory
image — repairing an already-repaired image changes no word. -/
theorem c5_validate_eeprom_idempotent (rt : RTChip) (e : EepromImage) :
    rt2800_validate_eeprom rt (rt2800_validate_eeprom rt e) =
      rt2800_validate_eeprom rt e := by
  by_cases hext : (rt = RTChip.rt3593 ∨ rt = RTChip.rt3883) <;>
  by_cases h28 : (rt = RTChip.rt2860 ∨ rt = RTChip.rt2872) <;>
    simp [rt2800_validate_eeprom, hext, h28, EepromImage.mk.injEq,
      repair_nic_conf0_idem, repair_nic_conf1_idem, repair_freq_idem,
      repair_rssi_offsets_idem, repair_rssi_lna_idem, repair_ext_lna2_idem,
      repair_freq_no_refire]

/-! ## Claim C7 -/

/-- Claim C7 (code bug): on RT3593 with reference LNA gain 0x30, an
`EXT_LNA2` word 0xff50 — A2 field (high byte) at the 0xff sentinel, A1
field (low byte) holding the valid value 0x50 — comes out of
`rt2800_validate_eeprom` as 0xff30: the A2-sentinel branch writes the A1
field (the source's `rt2x00_set_field16(&word, EEPROM_EXT_LNA2_A1, ...)`
under the A2 check), so A2 keeps its sentinel and the valid A1 value is
clobbered, instead of A2 being backfilled to 0x30. -/
theorem c7_ext_lna2_backfill_bug :
    (rt2800_validate_eeprom RTChip.rt3593
      { nicConf0 := 0x1234, nicConf1 := 0x0002, freq := 0x0101,
        ledAgConf := 0x5555, ledActConf := 0x2221, ledPolarity := 0xa9f8,
        lna := 0x3021, rssiBg := 0x0505, rssiBg2 := 0x0505, rssiA := 0x0505,
        rssiA2 := 0x0505, extLna2 := 0xff50 }).extLna2 = 0xff30 ∧
    rt2x00_get_field 8 8
      (rt2800_validate_eeprom RTChip.rt3593
        { nicConf0 := 0x1234, nicConf1 := 0x0002, freq := 0x0101,
          ledAgConf := 0x5555, ledActConf := 0x2221, ledPolarity := 0xa9f8,
          lna := 0x3021, rssiBg := 0x0505, rssiBg2 := 0x0505, rssiA := 0x0505,
          rssiA2 := 0x0505, extLna2 := 0xff50 }).extLna2 = 0xff := by
  constructor <;> decide

/-! ## Claim C8 helper lemmas -/

theorem rxBbpWrite_idx (s : RxSt) (r v : Nat) : (rxBbpWrite s r v).idx = s.idx := rfl

theorem rxRfWrite_idx (s : RxSt) (r v : Nat) : (rxRfWrite s r v).idx = s.idx := rfl

theorem rxPassLoop_first (env : Nat → Nat) (s : RxSt) (fuel : Nat)
    (h : env s.idx % 256 ≠ 0) :
    rxPassLoop env s (fuel + 1) =
      (env s.idx % 256,
        { s with bbp := Function.update s.bbp 25 0x90, idx := s.idx + 1 }) := by
  simp [rxPassLoop, rxBbpRead, rxBbpWrite, h]

/-- If every stopband reading keeps the gap strictly below the target,
the sweep exhausts its 100-step budget, incrementing once per step, and
never records an exact hit. -/
theorem rxStopLoop_all_lt (env : Nat → Nat) (pb ft : Nat) :
    ∀ (fuel : Nat) (s : RxSt) (r24 over : Nat), r24 < 256 →
    (∀ j, j < fuel → (pb : Int) - ((env (s.idx + j) % 256 : Nat) : Int) < (ft : Int)) →
    (rxStopLoop env pb ft s r24 over fuel).1 = (r24 + fuel) % 256 ∧
    (rxStopLoop env pb ft s r24 over fuel).2.1 = over := by
  intro fuel
  induction fuel with
  | zero =>
    intro s r24 over hr _
    simp [rxStopLoop, Nat.mod_eq_of_lt hr]
  | succ n ih =>
    intro s r24 over hr hall
    have h0 : (pb : Int) - ((env s.idx % 256 : Nat) : Int) < (ft : Int) := by
      have := hall 0 (Nat.succ_pos n)
      simpa using this
    simp only [rxStopLoop, rxBbpRead, rxBbpWrite, rxRfWrite, if_true]
    rw [if_pos (le_of_lt h0)]
    have hr' : (r24 + 1) % 256 < 256 := Nat.mod_lt _ (by norm_num)
    have hall' : ∀ j, j < n →
        (pb : Int) - ((env (s.idx + 1 + j) % 256 : Nat) : Int) < (ft : Int) := by
      intro j hj
      have h2 := hall (j + 1) (by omega)
      rwa [show s.idx + (j + 1) = s.idx + 1 + j by omega] at h2
    obtain ⟨ha, hb⟩ := ih
      { bbp := Function.update s.bbp 25 0x90,
        rf := Function.update s.rf 24 ((r24 + 1) % 256), idx := s.idx + 1 }
      ((r24 + 1) % 256)
      (over + if (pb : Int) - ((env s.idx % 256 : Nat) : Int) = (ft : Int) then 1 else 0)
      hr' hall'
    rw [ha, hb]
    refine ⟨by omega, ?_⟩
    rw [if_neg (ne_of_lt h0)]
    omega

/-- If every stopband reading hits the gap target exactly, the sweep
exhausts its budget and records an exact hit every step. -/
theorem rxStopLoop_all_eq (env : Nat → Nat) (pb ft : Nat) :
    ∀ (fuel : Nat) (s : RxSt) (r24 over : Nat), r24 < 256 →
    (∀ j, j < fuel → (pb : Int) - ((env (s.idx + j) % 256 : Nat) : Int) = (ft : Int)) →
    (rxStopLoop env pb ft s r24 over fuel).1 = (r24 + fuel) % 256 ∧
    (rxStopLoop env pb ft s r24 over fuel).2.1 = over + fuel := by
  intro fuel
  induction fuel with
  | zero =>
    intro s r24 over hr _
    simp [rxStopLoop, Nat.mod_eq_of_lt hr]
  | succ n ih =>
    intro s r24 over hr hall
    have h0 : (pb : Int) - ((env s.idx % 256 : Nat) : Int) = (ft : Int) := by
      have := hall 0 (Nat.succ_pos n)
      simpa using this
    simp only [rxStopLoop, rxBbpRead, rxBbpWrite, rxRfWrite, if_true]
    rw [if_pos (le_of_eq h0)]
    have hr' : (r24 + 1) % 256 < 256 := Nat.mod_lt _ (by norm_num)
    have hall' : ∀ j, j < n →
        (pb : Int) - ((env (s.idx + 1 + j) % 256 : Nat) : Int) = (ft : Int) := by
      intro j hj
      have h2 := hall (j + 1) (by omega)
      rwa [show s.idx + (j + 1) = s.idx + 1 + j by omega] at h2
    obtain ⟨ha, hb⟩ := ih
      { bbp := Function.update s.bbp 25 0x90,
        rf := Function.update s.rf 24 ((r24 + 1) % 256), idx := s.idx + 1 }
      ((r24 + 1) % 256)
      (over + if (pb : Int) - ((env s.idx % 256 : Nat) : Int) = (ft : Int) then 1 else 0)
      hr' hall'
    rw [ha, hb]
    refine ⟨by omega, ?_⟩
    rw [if_pos h0]
    omega

/-- If already the first stopband reading puts the gap above the target,
the sweep stops immediately: no increment, no exact-hit count. -/
theorem rxStopLoop_first_gt (env : Nat → Nat) (pb ft : Nat) (s : RxSt)
    (r24 over fuel : Nat)
    (h0 : (pb : Int) - ((env s.idx % 256 : Nat) : Int) > (ft : Int)) :
    (rxStopLoop env pb ft s r24 over (fuel + 1)).1 = r24 ∧
    (rxStopLoop env pb ft s r24 over (fuel + 1)).2.1 = over := by
  simp only [rxStopLoop, rxBbpRead, rxBbpWrite, if_true]
  rw [if_neg (not_le.mpr h0)]
  exact ⟨rfl, rfl⟩

theorem rxFilterSetup_idx (s0 : RxSt) (bw40 : Bool) :
    (rxFilterSetup s0 bw40).idx = s0.idx := rfl

/-- After the setup writes and a first-read passband capture, the sweep
result is the stopband loop's value, stepped back by one exactly when
the loop counted an exact hit. -/
theorem rt2800_init_rx_filter_run (env : Nat → Nat) (s0 : RxSt) (bw40 : Bool) (ft : Nat)
    (hp : env s0.idx % 256 ≠ 0) :
    ∃ s' : RxSt, s'.idx = s0.idx + 1 ∧
      (rt2800_init_rx_filter env s0 bw40 ft).1 =
        ((rxStopLoop env (env s0.idx % 256) ft s'
            (if bw40 then 0x27 else 0x07) 0 (99 + 1)).1 +
          256 -
          (if (rxStopLoop env (env s0.idx % 256) ft s'
                (if bw40 then 0x27 else 0x07) 0 (99 + 1)).2.1 ≠ 0
            then 1 else 0)) % 256 := by
  unfold rt2800_init_rx_filter
  rw [show (100 : Nat) = 99 + 1 from rfl]
  rw [rxPassLoop_first env (rxFilterSetup s0 bw40) 99
    (by rw [rxFilterSetup_idx]; exact hp)]
  exact ⟨_, rfl, rfl⟩

/-! ## Claim C8 -/

/-- Claim C8 counterexample: the sweep does not stop when the
passband−stopband gap falls at or below the target — it stops only when
the gap exceeds it.  With every BBP 55 reading equal to 8 and target 5,
every step's gap is 0 ≤ 5, yet the sweep performs all 100 increments
and returns 0x07 + 100 = 0x6b instead of stopping at the start value
0x07. -/
theorem c8_sweep_counterexample :
    (rt2800_init_rx_filter (fun _ => 8) ⟨fun _ => 0, fun _ => 0, 0⟩ false 5).1 = 0x6b ∧
    (rt2800_init_rx_filter (fun _ => 8) ⟨fun _ => 0, fun _ => 0, 0⟩ false 5).1 ≠ 0x07 := by
  constructor <;> decide

/-- Claim C8 amended: the sweep increments the tuning value while the
passband−stopband gap stays at or below the target and stops once the
gap exceeds it; it is bounded to 100 iterations; on non-convergence it
returns the last value reached rather than failing; and it steps the
returned value back by one exactly when a step's gap equalled the
target.  Stated via the measurement oracle: (a) a first reading already
above the target stops the sweep at the start value; (b) readings that
keep the gap strictly below the target for all 100 steps yield
start + 100 with no step-back; (c) readings that hit the target exactly
every step yield start + 100 stepped back by one. -/
theorem c8_sweep_behaviour (env : Nat → Nat) (s0 : RxSt) (bw40 : Bool) (ft : Nat)
    (hp : env s0.idx % 256 ≠ 0) :
    (((env s0.idx % 256 : Nat) : Int) - ((env (s0.idx + 1) % 256 : Nat) : Int) >
        (ft : Int) →
      (rt2800_init_rx_filter env s0 bw40 ft).1 = (if bw40 then 0x27 else 0x07)) ∧
    ((∀ j, 1 ≤ j → j ≤ 100 →
        ((env s0.idx % 256 : Nat) : Int) - ((env (s0.idx + j) % 256 : Nat) : Int) <
          (ft : Int)) →
      (rt2800_init_rx_filter env s0 bw40 ft).1 =
        ((if bw40 then 0x27 else 0x07) + 100) % 256) ∧
    ((∀ j, 1 ≤ j → j ≤ 100 →
        ((env s0.idx % 256 : Nat) : Int) - ((env (s0.idx + j) % 256 : Nat) : Int) =
          (ft : Int)) →
      (rt2800_init_rx_filter env s0 bw40 ft).1 =
        ((if bw40 then 0x27 else 0x07) + 99) % 256) := by
  obtain ⟨s', hidx, heq⟩ := rt2800_init_rx_filter_run env s0 bw40 ft hp
  have hstart : (if bw40 then (0x27 : Nat) else 0x07) < 256 := by
    cases bw40 <;> norm_num
  refine ⟨?_, ?_, ?_⟩
  · intro hgt
    obtain ⟨e1, e2⟩ := rxStopLoop_first_gt env (env s0.idx % 256) ft s'
      (if bw40 then 0x27 else 0x07) 0 99 (by rw [hidx]; exact hgt)
    rw [heq, e1, e2]
    cases bw40 <;> norm_num
  · intro hall
    have hall' : ∀ j, j < 99 + 1 → ((env s0.idx % 256 : Nat) : Int) -
        ((env (s'.idx + j) % 256 : Nat) : Int) < (ft : Int) := by
      intro j hj
      have h2 := hall (j + 1) (by omega) (by omega)
      rw [hidx]
      rwa [show s0.idx + (j + 1) = s0.idx + 1 + j by omega] at h2
    obtain ⟨e1, e2⟩ := rxStopLoop_all_lt env (env s0.idx % 256) ft (99 + 1) s'
      (if bw40 then 0x27 else 0x07) 0 hstart hall'
    rw [heq, e1, e2]
    cases bw40 <;> norm_num
  · intro hall
    have hall' : ∀ j, j < 99 + 1 → ((env s0.idx % 256 : Nat) : Int) -
        ((env (s'.idx + j) % 256 : Nat) : Int) = (ft : Int) := by
      intro j hj
      have h2 := hall (j + 1) (by omega) (by omega)
      rw [hidx]
      rwa [show s0.idx + (j + 1) = s0.idx + 1 + j by omega] at h2
    obtain ⟨e1, e2⟩ := rxStopLoop_all_eq env (env s0.idx % 256) ft (99 + 1) s'
      (if bw40 then 0x27 else 0x07) 0 hstart hall'
    rw [heq, e1, e2]
    cases bw40 <;> norm_num

/-- Claim C8 witness: the amended behaviour at concrete oracles — a
stopband response far below the passband (gap 15 > target 5) stops at
the start value 0x07; a response equal to the passband (gap 0 < 5) runs
all 100 steps to 0x6b; responses exactly at the target gap run all 100
steps and step back once to 0x6a. -/
theorem c8_sweep_behaviour_witness :
    (rt2800_init_rx_filter (fun i => if i = 0 then 20 else 5)
      ⟨fun _ => 0, fun _ => 0, 0⟩ false 5).1 = 0x07 ∧
    (rt2800_init_rx_filter (fun _ => 8) ⟨fun _ => 0, fun _ => 0, 0⟩ false 5).1 =
      (0x07 + 100) % 256 ∧
    (rt2800_init_rx_filter (fun i => if i = 0 then 20 else 15)
      ⟨fun _ => 0, fun _ => 0, 0⟩ false 5).1 = (0x07 + 99) % 256 :=
  ⟨(c8_sweep_behaviour (fun i => if i = 0 then 20 else 5)
      ⟨fun _ => 0, fun _ => 0, 0⟩ false 5 (by decide)).1 (by decide),
   (c8_sweep_behaviour (fun _ => 8)
      ⟨fun _ => 0, fun _ => 0, 0⟩ false 5 (by decide)).2.1
      (fun j h1 h2 => by norm_num),
   (c8_sweep_behaviour (fun i => if i = 0 then 20 else 15)
      ⟨fun _ => 0, fun _ => 0, 0⟩ false 5 (by decide)).2.2
      (fun j h1 h2 => by
        have hj : j ≠ 0 := by omega
        simp only [Nat.zero_add]
        rw [if_neg hj]
        norm_num)⟩

/-! ## Claim C4 helper lemmas: the calibration building blocks do not
touch the calibration cache fields or the HT40 flag except at the
explicit store sites -/

@[simp]
theorem calRfbWrite_txCal20 (s : CalState) (r v : Nat) :
    (calRfbWrite s r v).txCal20 = s.txCal20 := rfl

@[simp]
theorem calRfbWrite_txCal40 (s : CalState) (r v : Nat) :
    (calRfbWrite s r v).txCal40 = s.txCal40 := rfl

@[simp]
theorem calRfbWrite_rxCal20 (s : CalState) (r v : Nat) :
    (calRfbWrite s r v).rxCal20 = s.rxCal20 := rfl

@[simp]
theorem calRfbWrite_rxCal40 (s : CalState) (r v : Nat) :
    (calRfbWrite s r v).rxCal40 = s.rxCal40 := rfl

@[simp]
theorem calRfbWrite_ht40 (s : CalState) (r v : Nat) :
    (calRfbWrite s r v).ht40 = s.ht40 := rfl

@[simp]
theorem calMacWrite_txCal20 (s : CalState) (r v : Nat) :
    (calMacWrite s r v).txCal20 = s.txCal20 := rfl

@[simp]
theorem calMacWrite_txCal40 (s : CalState) (r v : Nat) :
    (calMacWrite s r v).txCal40 = s.txCal40 := rfl

@[simp]
theorem calMacWrite_rxCal20 (s : CalState) (r v : Nat) :
    (calMacWrite s r v).rxCal20 = s.rxCal20 := rfl

@[simp]
theorem calMacWrite_rxCal40 (s : CalState) (r v : Nat) :
    (calMacWrite s r v).rxCal40 = s.rxCal40 := rfl

@[simp]
theorem calMacWrite_ht40 (s : CalState) (r v : Nat) :
    (calMacWrite s r v).ht40 = s.ht40 := rfl

@[simp]
theorem calBbpWrite_txCal20 (s : CalState) (r v : Nat) :
    (calBbpWrite s r v).txCal20 = s.txCal20 := by
  unfold calBbpWrite
  split <;> rfl

@[simp]
theorem calBbpWrite_txCal40 (s : CalState) (r v : Nat) :
    (calBbpWrite s r v).txCal40 = s.txCal40 := by
  unfold calBbpWrite
  split <;> rfl

@[simp]
theorem calBbpWrite_rxCal20 (s : CalState) (r v : Nat) :
    (calBbpWrite s r v).rxCal20 = s.rxCal20 := by
  unfold calBbpWrite
  split <;> rfl

@[simp]
theorem calBbpWrite_rxCal40 (s : CalState) (r v : Nat) :
    (calBbpWrite s r v).rxCal40 = s.rxCal40 := by
  unfold calBbpWrite
  split <;> rfl

@[simp]
theorem calBbpWrite_ht40 (s : CalState) (r v : Nat) :
    (calBbpWrite s r v).ht40 = s.ht40 := by
  unfold calBbpWrite
  split <;> rfl

@[simp]
theorem rt2800_bbp_dcoc_write_txCal20 (s : CalState) (r v : Nat) :
    (rt2800_bbp_dcoc_write s r v).txCal20 = s.txCal20 := by
  unfold rt2800_bbp_dcoc_write
  simp

@[simp]
theorem rt2800_bbp_dcoc_write_txCal40 (s : CalState) (r v : Nat) :
    (rt2800_bbp_dcoc_write s r v).txCal40 = s.txCal40 := by
  unfold rt2800_bbp_dcoc_write
  simp

@[simp]
theorem rt2800_bbp_dcoc_write_rxCal20 (s : CalState) (r v : Nat) :
    (rt2800_bbp_dcoc_write s r v).rxCal20 = s.rxCal20 := by
  unfold rt2800_bbp_dcoc_write
  simp

@[simp]
theorem rt2800_bbp_dcoc_write_rxCal40 (s : CalState) (r v : Nat) :
    (rt2800_bbp_dcoc_write s r v).rxCal40 = s.rxCal40 := by
  unfold rt2800_bbp_dcoc_write
  simp

@[simp]
theorem rt2800_bbp_dcoc_write_ht40 (s : CalState) (r v : Nat) :
    (rt2800_bbp_dcoc_write s r v).ht40 = s.ht40 := by
  unfold rt2800_bbp_dcoc_write
  simp

@[simp]
theorem rt2800_bbp_dcoc_read_txCal20 (s : CalState) (r : Nat) :
    (rt2800_bbp_dcoc_read s r).2.txCal20 = s.txCal20 := by
  unfold rt2800_bbp_dcoc_read
  simp

@[simp]
theorem rt2800_bbp_dcoc_read_txCal40 (s : CalState) (r : Nat) :
    (rt2800_bbp_dcoc_read s r).2.txCal40 = s.txCal40 := by
  unfold rt2800_bbp_dcoc_read
  simp

@[simp]
theorem rt2800_bbp_dcoc_read_rxCal20 (s : CalState) (r : Nat) :
    (rt2800_bbp_dcoc_read s r).2.rxCal20 = s.rxCal20 := by
  unfold rt2800_bbp_dcoc_read
  simp

@[simp]
theorem rt2800_bbp_dcoc_read_rxCal40 (s : CalState) (r : Nat) :
    (rt2800_bbp_dcoc_read s r).2.rxCal40 = s.rxCal40 := by
  unfold rt2800_bbp_dcoc_read
  simp

@[simp]
theorem rt2800_bbp_dcoc_read_ht40 (s : CalState) (r : Nat) :
    (rt2800_bbp_dcoc_read s r).2.ht40 = s.ht40 := by
  unfold rt2800_bbp_dcoc_read
  simp

@[simp]
theorem rt2800_bbp_core_soft_reset_txCal20 (s : CalState) (a b : Bool) :
    (rt2800_bbp_core_soft_reset s a b).txCal20 = s.txCal20 := by
  unfold rt2800_bbp_core_soft_reset
  split <;> simp

@[simp]
theorem rt2800_bbp_core_soft_reset_txCal40 (s : CalState) (a b : Bool) :
    (rt2800_bbp_core_soft_reset s a b).txCal40 = s.txCal40 := by
  unfold rt2800_bbp_core_soft_reset
  split <;> simp

@[simp]
theorem rt2800_bbp_core_soft_reset_rxCal20 (s : CalState) (a b : Bool) :
    (rt2800_bbp_core_soft_reset s a b).rxCal20 = s.rxCal20 := by
  unfold rt2800_bbp_core_soft_reset
  split <;> simp

@[simp]
theorem rt2800_bbp_core_soft_reset_rxCal40 (s : CalState) (a b : Bool) :
    (rt2800_bbp_core_soft_reset s a b).rxCal40 = s.rxCal40 := by
  unfold rt2800_bbp_core_soft_reset
  split <;> simp

@[simp]
theorem rt2800_bbp_core_soft_reset_ht40 (s : CalState) (a b : Bool) :
    (rt2800_bbp_core_soft_reset s a b).ht40 = s.ht40 := by
  unfold rt2800_bbp_core_soft_reset
  split <;> simp

@[simp]
theorem rt2800_rf_lp_config_txCal20 (s : CalState) (b : Bool) :
    (rt2800_rf_lp_config s b).txCal20 = s.txCal20 := by
  unfold rt2800_rf_lp_config
  split <;> simp

@[simp]
theorem rt2800_rf_lp_config_txCal40 (s : CalState) (b : Bool) :
    (rt2800_rf_lp_config s b).txCal40 = s.txCal40 := by
  unfold rt2800_rf_lp_config
  split <;> simp

@[simp]
theorem rt2800_rf_lp_config_rxCal20 (s : CalState) (b : Bool) :
    (rt2800_rf_lp_config s b).rxCal20 = s.rxCal20 := by
  unfold rt2800_rf_lp_config
  split <;> simp

@[simp]
theorem rt2800_rf_lp_config_rxCal40 (s : CalState) (b : Bool) :
    (rt2800_rf_lp_config s b).rxCal40 = s.rxCal40 := by
  unfold rt2800_rf_lp_config
  split <;> simp

@[simp]
theorem rt2800_rf_lp_config_ht40 (s : CalState) (b : Bool) :
    (rt2800_rf_lp_config s b).ht40 = s.ht40 := by
  unfold rt2800_rf_lp_config
  split <;> simp

@[simp]
theorem rt2800_lp_tx_filter_bw_cal_txCal20 (s : CalState) :
    (rt2800_lp_tx_filter_bw_cal s).2.txCal20 = s.txCal20 := by
  unfold rt2800_lp_tx_filter_bw_cal
  simp

@[simp]
theorem rt2800_lp_tx_filter_bw_cal_txCal40 (s : CalState) :
    (rt2800_lp_tx_filter_bw_cal s).2.txCal40 = s.txCal40 := by
  unfold rt2800_lp_tx_filter_bw_cal
  simp

@[simp]
theorem rt2800_lp_tx_filter_bw_cal_rxCal20 (s : CalState) :
    (rt2800_lp_tx_filter_bw_cal s).2.rxCal20 = s.rxCal20 := by
  unfold rt2800_lp_tx_filter_bw_cal
  simp

@[simp]
theorem rt2800_lp_tx_filter_bw_cal_rxCal40 (s : CalState) :
    (rt2800_lp_tx_filter_bw_cal s).2.rxCal40 = s.rxCal40 := by
  unfold rt2800_lp_tx_filter_bw_cal
  simp

@[simp]
theorem rt2800_lp_tx_filter_bw_cal_ht40 (s : CalState) :
    (rt2800_lp_tx_filter_bw_cal s).2.ht40 = s.ht40 := by
  unfold rt2800_lp_tx_filter_bw_cal
  simp

@[simp]
theorem doCalProgram_txCal20 (s : CalState) (b : Bool) (agc : Nat) :
    (doCalProgram s b agc).txCal20 = s.txCal20 := by
  unfold doCalProgram
  split <;> simp

@[simp]
theorem doCalProgram_txCal40 (s : CalState) (b : Bool) (agc : Nat) :
    (doCalProgram s b agc).txCal40 = s.txCal40 := by
  unfold doCalProgram
  split <;> simp

@[simp]
theorem doCalProgram_rxCal20 (s : CalState) (b : Bool) (agc : Nat) :
    (doCalProgram s b agc).rxCal20 = s.rxCal20 := by
  unfold doCalProgram
  split <;> simp

@[simp]
theorem doCalProgram_rxCal40 (s : CalState) (b : Bool) (agc : Nat) :
    (doCalProgram s b agc).rxCal40 = s.rxCal40 := by
  unfold doCalProgram
  split <;> simp

@[simp]
theorem doCalProgram_ht40 (s : CalState) (b : Bool) (agc : Nat) :
    (doCalProgram s b agc).ht40 = s.ht40 := by
  unfold doCalProgram
  split <;> simp


/-- The `do_cal` search loop never touches the calibration cache fields
or the HT40 flag; it only reads and writes registers. -/
theorem doCalLoop_preserves (b h : Bool) (ft : Nat) (ci : Int) :
    ∀ (fuel : Nat) (s : CalState) (agc : Nat),
      (doCalLoop b h ft ci s agc fuel).1.txCal20 = s.txCal20 ∧
      (doCalLoop b h ft ci s agc fuel).1.txCal40 = s.txCal40 ∧
      (doCalLoop b h ft ci s agc fuel).1.rxCal20 = s.rxCal20 ∧
      (doCalLoop b h ft ci s agc fuel).1.rxCal40 = s.rxCal40 ∧
      (doCalLoop b h ft ci s agc fuel).1.ht40 = s.ht40 := by
  intro fuel
  induction fuel with
  | zero =>
    intro s agc
    simp [doCalLoop]
  | succ n ih =>
    intro s agc
    simp only [doCalLoop]
    split
    · simp
    · split
      · have := ih (rt2800_lp_tx_filter_bw_cal
          (rt2800_bbp_core_soft_reset (doCalProgram s b agc) false h)).2 (agc + 1)
        simpa using this
      · simp

/-- The `do_cal` candidate is bounded by the 6-bit field maximum 0x3f:
the retry branch is guarded by `agc < 0x3f`. -/
theorem doCalLoop_agc_le (b h : Bool) (ft : Nat) (ci : Int) :
    ∀ (fuel : Nat) (s : CalState) (agc : Nat), agc ≤ 0x3f →
      (doCalLoop b h ft ci s agc fuel).2 ≤ 0x3f := by
  intro fuel
  induction fuel with
  | zero =>
    intro s agc hagc
    simpa [doCalLoop] using hagc
  | succ n ih =>
    intro s agc hagc
    simp only [doCalLoop]
    split
    · simp
    · rename_i hcond
      split
      · rename_i hcond2
        exact ih _ (agc + 1) (by omega)
      · simpa using hagc
@[simp]
theorem doCalLoop_txCal20 (b h : Bool) (ft : Nat) (ci : Int) (s : CalState)
    (agc fuel : Nat) :
    (doCalLoop b h ft ci s agc fuel).1.txCal20 = s.txCal20 :=
  (doCalLoop_preserves b h ft ci fuel s agc).1

@[simp]
theorem doCalLoop_txCal40 (b h : Bool) (ft : Nat) (ci : Int) (s : CalState)
    (agc fuel : Nat) :
    (doCalLoop b h ft ci s agc fuel).1.txCal40 = s.txCal40 :=
  (doCalLoop_preserves b h ft ci fuel s agc).2.1

@[simp]
theorem doCalLoop_rxCal20 (b h : Bool) (ft : Nat) (ci : Int) (s : CalState)
    (agc fuel : Nat) :
    (doCalLoop b h ft ci s agc fuel).1.rxCal20 = s.rxCal20 :=
  (doCalLoop_preserves b h ft ci fuel s agc).2.2.1

@[simp]
theorem doCalLoop_rxCal40 (b h : Bool) (ft : Nat) (ci : Int) (s : CalState)
    (agc fuel : Nat) :
    (doCalLoop b h ft ci s agc fuel).1.rxCal40 = s.rxCal40 :=
  (doCalLoop_preserves b h ft ci fuel s agc).2.2.2.1

@[simp]
theorem doCalLoop_ht40 (b h : Bool) (ft : Nat) (ci : Int) (s : CalState)
    (agc fuel : Nat) :
    (doCalLoop b h ft ci s agc fuel).1.ht40 = s.ht40 :=
  (doCalLoop_preserves b h ft ci fuel s agc).2.2.2.2


/-- The 20 MHz TX pass stores a bounded value in `tx_calibration_bw20`
and leaves the other cache fields and the HT40 flag unchanged. -/
theorem calOuterIter_true_0 (s : CalState) :
    (calOuterIter true 0 s).txCal20 ≤ 0x3f ∧
    (calOuterIter true 0 s).txCal40 = s.txCal40 ∧
    (calOuterIter true 0 s).rxCal20 = s.rxCal20 ∧
    (calOuterIter true 0 s).rxCal40 = s.rxCal40 ∧
    (calOuterIter true 0 s).ht40 = s.ht40 := by
  unfold calOuterIter
  norm_num
  exact doCalLoop_agc_le _ _ _ _ _ _ _ (by norm_num)

/-- The 40 MHz TX pass stores a bounded value in `tx_calibration_bw40`
and leaves the other cache fields and the HT40 flag unchanged. -/
theorem calOuterIter_true_1 (s : CalState) :
    (calOuterIter true 1 s).txCal40 ≤ 0x3f ∧
    (calOuterIter true 1 s).txCal20 = s.txCal20 ∧
    (calOuterIter true 1 s).rxCal20 = s.rxCal20 ∧
    (calOuterIter true 1 s).rxCal40 = s.rxCal40 ∧
    (calOuterIter true 1 s).ht40 = s.ht40 := by
  unfold calOuterIter
  norm_num
  exact doCalLoop_agc_le _ _ _ _ _ _ _ (by norm_num)

/-- The 20 MHz RX pass stores a bounded value in `rx_calibration_bw20`
and leaves the other cache fields and the HT40 flag unchanged. -/
theorem calOuterIter_false_0 (s : CalState) :
    (calOuterIter false 0 s).rxCal20 ≤ 0x3f ∧
    (calOuterIter false 0 s).rxCal40 = s.rxCal40 ∧
    (calOuterIter false 0 s).txCal20 = s.txCal20 ∧
    (calOuterIter false 0 s).txCal40 = s.txCal40 ∧
    (calOuterIter false 0 s).ht40 = s.ht40 := by
  unfold calOuterIter
  norm_num
  exact doCalLoop_agc_le _ _ _ _ _ _ _ (by norm_num)

/-- The 40 MHz RX pass stores a bounded value in `rx_calibration_bw40`
and leaves the other cache fields and the HT40 flag unchanged. -/
theorem calOuterIter_false_1 (s : CalState) :
    (calOuterIter false 1 s).rxCal40 ≤ 0x3f ∧
    (calOuterIter false 1 s).rxCal20 = s.rxCal20 ∧
    (calOuterIter false 1 s).txCal20 = s.txCal20 ∧
    (calOuterIter false 1 s).txCal40 = s.txCal40 ∧
    (calOuterIter false 1 s).ht40 = s.ht40 := by
  unfold calOuterIter
  norm_num
  exact doCalLoop_agc_le _ _ _ _ _ _ _ (by norm_num)

/-- Both passes of a TX calibration run: both TX cache fields end up
bounded, the RX cache fields untouched. -/
theorem calibMiddle_true (s : CalState) :
    (calibMiddle true s).txCal20 ≤ 0x3f ∧ (calibMiddle true s).txCal40 ≤ 0x3f ∧
    (calibMiddle true s).rxCal20 = s.rxCal20 ∧
    (calibMiddle true s).rxCal40 = s.rxCal40 := by
  unfold calibMiddle
  have h0 := calOuterIter_true_0 (calBbpWrite
    (calRfbWrite (calRfbWrite (calRfbWrite s 0 (s.rfb5 0 ||| 0x3)) 1
        ((calRfbWrite s 0 (s.rfb5 0 ||| 0x3)).rfb5 1 ||| 0x1)) 0
      (((calRfbWrite (calRfbWrite s 0 (s.rfb5 0 ||| 0x3)) 1
          ((calRfbWrite s 0 (s.rfb5 0 ||| 0x3)).rfb5 1 ||| 0x1)).rfb5 0 &&& 0xFC) ||| 0x1))
    23 ((calBbpRead (calRfbWrite (calRfbWrite (calRfbWrite s 0 (s.rfb5 0 ||| 0x3)) 1
        ((calRfbWrite s 0 (s.rfb5 0 ||| 0x3)).rfb5 1 ||| 0x1)) 0
      (((calRfbWrite (calRfbWrite s 0 (s.rfb5 0 ||| 0x3)) 1
          ((calRfbWrite s 0 (s.rfb5 0 ||| 0x3)).rfb5 1 ||| 0x1)).rfb5 0 &&& 0xFC) ||| 0x1))
      23 &&& 0xE0) ||| 0x10))
  have h1 := calOuterIter_true_1 (calOuterIter true 0 (calBbpWrite
    (calRfbWrite (calRfbWrite (calRfbWrite s 0 (s.rfb5 0 ||| 0x3)) 1
        ((calRfbWrite s 0 (s.rfb5 0 ||| 0x3)).rfb5 1 ||| 0x1)) 0
      (((calRfbWrite (calRfbWrite s 0 (s.rfb5 0 ||| 0x3)) 1
          ((calRfbWrite s 0 (s.rfb5 0 ||| 0x3)).rfb5 1 ||| 0x1)).rfb5 0 &&& 0xFC) ||| 0x1))
    23 ((calBbpRead (calRfbWrite (calRfbWrite (calRfbWrite s 0 (s.rfb5 0 ||| 0x3)) 1
        ((calRfbWrite s 0 (s.rfb5 0 ||| 0x3)).rfb5 1 ||| 0x1)) 0
      (((calRfbWrite (calRfbWrite s 0 (s.rfb5 0 ||| 0x3)) 1
          ((calRfbWrite s 0 (s.rfb5 0 ||| 0x3)).rfb5 1 ||| 0x1)).rfb5 0 &&& 0xFC) ||| 0x1))
      23 &&& 0xE0) ||| 0x10)))
  refine ⟨?_, h1.1, ?_, ?_⟩
  · rw [h1.2.1]
    exact h0.1
  · rw [h1.2.2.1, h0.2.2.1]
    simp
  · rw [h1.2.2.2.1, h0.2.2.2.1]
    simp

/-- Both passes of an RX calibration run: both RX cache fields end up
bounded, the TX cache fields untouched. -/
theorem calibMiddle_false (s : CalState) :
    (calibMiddle false s).rxCal20 ≤ 0x3f ∧ (calibMiddle false s).rxCal40 ≤ 0x3f ∧
    (calibMiddle false s).txCal20 = s.txCal20 ∧
    (calibMiddle false s).txCal40 = s.txCal40 := by
  unfold calibMiddle
  have h0 := calOuterIter_false_0 (calBbpWrite
    (calRfbWrite (calRfbWrite (calRfbWrite s 0 (s.rfb5 0 ||| 0x3)) 1
        ((calRfbWrite s 0 (s.rfb5 0 ||| 0x3)).rfb5 1 ||| 0x1)) 0
      (((calRfbWrite (calRfbWrite s 0 (s.rfb5 0 ||| 0x3)) 1
          ((calRfbWrite s 0 (s.rfb5 0 ||| 0x3)).rfb5 1 ||| 0x1)).rfb5 0 &&& 0xFC) ||| 0x1))
    23 ((calBbpRead (calRfbWrite (calRfbWrite (calRfbWrite s 0 (s.rfb5 0 ||| 0x3)) 1
        ((calRfbWrite s 0 (s.rfb5 0 ||| 0x3)).rfb5 1 ||| 0x1)) 0
      (((calRfbWrite (calRfbWrite s 0 (s.rfb5 0 ||| 0x3)) 1
          ((calRfbWrite s 0 (s.rfb5 0 ||| 0x3)).rfb5 1 ||| 0x1)).rfb5 0 &&& 0xFC) ||| 0x1))
      23 &&& 0xE0) ||| 0x10))
  have h1 := calOuterIter_false_1 (calOuterIter false 0 (calBbpWrite
    (calRfbWrite (calRfbWrite (calRfbWrite s 0 (s.rfb5 0 ||| 0x3)) 1
        ((calRfbWrite s 0 (s.rfb5 0 ||| 0x3)).rfb5 1 ||| 0x1)) 0
      (((calRfbWrite (calRfbWrite s 0 (s.rfb5 0 ||| 0x3)) 1
          ((calRfbWrite s 0 (s.rfb5 0 ||| 0x3)).rfb5 1 ||| 0x1)).rfb5 0 &&& 0xFC) ||| 0x1))
    23 ((calBbpRead (calRfbWrite (calRfbWrite (calRfbWrite s 0 (s.rfb5 0 ||| 0x3)) 1
        ((calRfbWrite s 0 (s.rfb5 0 ||| 0x3)).rfb5 1 ||| 0x1)) 0
      (((calRfbWrite (calRfbWrite s 0 (s.rfb5 0 ||| 0x3)) 1
          ((calRfbWrite s 0 (s.rfb5 0 ||| 0x3)).rfb5 1 ||| 0x1)).rfb5 0 &&& 0xFC) ||| 0x1))
      23 &&& 0xE0) ||| 0x10)))
  refine ⟨?_, h1.1, ?_, ?_⟩
  · rw [h1.2.1]
    exact h0.1
  · rw [h1.2.2.1, h0.2.2.1]
    simp
  · rw [h1.2.2.2.1, h0.2.2.2.1]
    simp


/-! Structural projection lemmas: each register write touches exactly
its own register space, so lookups rewrite without expanding the state
record. -/

@[simp]
theorem calRfbWrite_rfb5 (s : CalState) (r v : Nat) :
    (calRfbWrite s r v).rfb5 = Function.update s.rfb5 r v := rfl

@[simp]
theorem calRfbWrite_mac (s : CalState) (r v : Nat) :
    (calRfbWrite s r v).mac = s.mac := rfl

@[simp]
theorem calRfbWrite_bbp (s : CalState) (r v : Nat) :
    (calRfbWrite s r v).bbp = s.bbp := rfl

@[simp]
theorem calRfbWrite_dcoc (s : CalState) (r v : Nat) :
    (calRfbWrite s r v).dcoc = s.dcoc := rfl

@[simp]
theorem calMacWrite_mac (s : CalState) (r v : Nat) :
    (calMacWrite s r v).mac = Function.update s.mac r v := rfl

@[simp]
theorem calMacWrite_bbp (s : CalState) (r v : Nat) :
    (calMacWrite s r v).bbp = s.bbp := rfl

@[simp]
theorem calMacWrite_dcoc (s : CalState) (r v : Nat) :
    (calMacWrite s r v).dcoc = s.dcoc := rfl

@[simp]
theorem calMacWrite_rfb5 (s : CalState) (r v : Nat) :
    (calMacWrite s r v).rfb5 = s.rfb5 := rfl

@[simp]
theorem calBbpWrite_mac (s : CalState) (r v : Nat) :
    (calBbpWrite s r v).mac = s.mac := by
  unfold calBbpWrite
  split <;> rfl

@[simp]
theorem calBbpWrite_rfb5 (s : CalState) (r v : Nat) :
    (calBbpWrite s r v).rfb5 = s.rfb5 := by
  unfold calBbpWrite
  split <;> rfl

@[simp]
theorem calBbpWrite_159_bbp (s : CalState) (v : Nat) :
    (calBbpWrite s 159 v).bbp = s.bbp := by
  unfold calBbpWrite
  simp

@[simp]
theorem calBbpWrite_159_dcoc (s : CalState) (v : Nat) :
    (calBbpWrite s 159 v).dcoc = Function.update s.dcoc (s.bbp 158) v := by
  unfold calBbpWrite
  simp

@[simp]
theorem calBbpWrite_bbp_ne (s : CalState) (r v : Nat) (h : r ≠ 159) :
    (calBbpWrite s r v).bbp = Function.update s.bbp r v := by
  unfold calBbpWrite
  rw [if_neg h]

@[simp]
theorem calBbpWrite_dcoc_ne (s : CalState) (r v : Nat) (h : r ≠ 159) :
    (calBbpWrite s r v).dcoc = s.dcoc := by
  unfold calBbpWrite
  rw [if_neg h]


/-- The RF bank-5 map after the restore block: the 24 saved values
written back over the incoming map (none of the later restore writes
touches the bank). -/
theorem calibRestore_rfb5 (sv : CalSaves) (s : CalState) :
    (calibRestore sv s).rfb5 = (Function.update (Function.update (Function.update (Function.update (Function.update (Function.update (Function.update (Function.update (Function.update (Function.update (Function.update (Function.update (Function.update (Function.update (Function.update (Function.update (Function.update (Function.update (Function.update (Function.update (Function.update (Function.update (Function.update (Function.update s.rfb5 0 sv.r00) 1 sv.r01) 3 sv.r03) 4 sv.r04) 5 sv.r05) 6 sv.r06) 7 sv.r07) 8 sv.r08) 17 sv.r17) 18 sv.r18) 19 sv.r19) 20 sv.r20) 37 sv.r37) 38 sv.r38) 39 sv.r39) 40 sv.r40) 41 sv.r41) 42 sv.r42) 43 sv.r43) 44 sv.r44) 45 sv.r45) 46 sv.r46) 58 sv.r58) 59 sv.r59) := by
  unfold calibRestore rt2800_bbp_dcoc_write
  simp only [calRfbWrite_rfb5, calMacWrite_rfb5, calBbpWrite_rfb5]

@[simp]
theorem calBbpWrite_bbp_4 (s : CalState) (v : Nat) :
    (calBbpWrite s 4 v).bbp = Function.update s.bbp 4 v := by
  unfold calBbpWrite
  norm_num

@[simp]
theorem calBbpWrite_bbp_23 (s : CalState) (v : Nat) :
    (calBbpWrite s 23 v).bbp = Function.update s.bbp 23 v := by
  unfold calBbpWrite
  norm_num

@[simp]
theorem calBbpWrite_bbp_158 (s : CalState) (v : Nat) :
    (calBbpWrite s 158 v).bbp = Function.update s.bbp 158 v := by
  unfold calBbpWrite
  norm_num

@[simp]
theorem calBbpWrite_dcoc_4 (s : CalState) (v : Nat) :
    (calBbpWrite s 4 v).dcoc = s.dcoc := by
  unfold calBbpWrite
  norm_num

@[simp]
theorem calBbpWrite_dcoc_23 (s : CalState) (v : Nat) :
    (calBbpWrite s 23 v).dcoc = s.dcoc := by
  unfold calBbpWrite
  norm_num

@[simp]
theorem calBbpWrite_dcoc_158 (s : CalState) (v : Nat) :
    (calBbpWrite s 158 v).dcoc = s.dcoc := by
  unfold calBbpWrite
  norm_num

theorem calibRestore_bbp23 (sv : CalSaves) (s : CalState) :
    (calibRestore sv s).bbp 23 = sv.b23 := by
  have h4 : ∀ (f : Nat → Nat) (v : Nat), Function.update f 4 v 23 = f 23 :=
    fun f v => Function.update_noteq (by norm_num) v f
  have h158 : ∀ (f : Nat → Nat) (v : Nat), Function.update f 158 v 23 = f 23 :=
    fun f v => Function.update_noteq (by norm_num) v f
  unfold calibRestore rt2800_bbp_dcoc_write
  simp only [calMacWrite_bbp, calRfbWrite_bbp, calBbpWrite_159_bbp,
    calBbpWrite_bbp_4, calBbpWrite_bbp_23, calBbpWrite_bbp_158]
  rw [h4, h158, h158, Function.update_same]

theorem calibRestore_dcoc (sv : CalSaves) (s : CalState) :
    (calibRestore sv s).dcoc 0 = sv.d0 ∧ (calibRestore sv s).dcoc 2 = sv.d2 := by
  have h02 : ∀ (f : Nat → Nat) (v : Nat), Function.update f 2 v 0 = f 0 :=
    fun f v => Function.update_noteq (by norm_num) v f
  unfold calibRestore rt2800_bbp_dcoc_write
  simp only [calMacWrite_dcoc, calRfbWrite_dcoc, calBbpWrite_159_dcoc,
    calBbpWrite_dcoc_4, calBbpWrite_dcoc_23, calBbpWrite_dcoc_158,
    calBbpWrite_159_bbp, calBbpWrite_bbp_158, calBbpWrite_bbp_23,
    calBbpWrite_bbp_4, calMacWrite_bbp, calRfbWrite_bbp,
    Function.update_same]
  rw [calBbpWrite_bbp_158]
  rw [Function.update_same]
  rw [h02]
  rw [Function.update_same, Function.update_same]
  exact ⟨rfl, rfl⟩

theorem calibRestore_mac (sv : CalSaves) (s : CalState) :
    (calibRestore sv s).mac RF_CONTROL0 = sv.macControl0 ∧
    (calibRestore sv s).mac RF_BYPASS0 = sv.macBypass0 := by
  have hcb : ∀ (f : Nat → Nat) (v : Nat),
      Function.update f 0x051c v 0x0518 = f 0x0518 :=
    fun f v => Function.update_noteq (by norm_num) v f
  unfold calibRestore rt2800_bbp_dcoc_write
  simp only [calMacWrite_mac, calRfbWrite_mac, calBbpWrite_mac,
    RF_CONTROL0, RF_BYPASS0]
  rw [hcb, Function.update_same, Function.update_same]
  exact ⟨rfl, rfl⟩

theorem calibRestore_drv (sv : CalSaves) (s : CalState) :
    (calibRestore sv s).txCal20 = s.txCal20 ∧
    (calibRestore sv s).txCal40 = s.txCal40 ∧
    (calibRestore sv s).rxCal20 = s.rxCal20 ∧
    (calibRestore sv s).rxCal40 = s.rxCal40 := by
  unfold calibRestore rt2800_bbp_dcoc_write
  simp only [calMacWrite_txCal20, calMacWrite_txCal40, calMacWrite_rxCal20,
    calMacWrite_rxCal40, calRfbWrite_txCal20, calRfbWrite_txCal40,
    calRfbWrite_rxCal20, calRfbWrite_rxCal40, calBbpWrite_txCal20,
    calBbpWrite_txCal40, calBbpWrite_rxCal20, calBbpWrite_rxCal40]
  exact ⟨trivial, trivial, trivial, trivial⟩

/-- **C4**: after `rt2800_bw_filter_calibration` returns, every RF bank-5
register it saved at entry (regs 0,1,3-8,17-20,37-46,58,59), BBP register 23,
the two DCOC window entries (indices 0 and 2), and the two MAC registers
RF_CONTROL0 and RF_BYPASS0 have been written back to their saved pre-call
values, unconditionally (so the device never remains in the test-tone /
loopback configuration); the calibration results are stored in the two
per-bandwidth driver cache fields chosen by `btxcal` (each at most the field
maximum 0x3f), leaving the other pair of cache fields unchanged. -/
theorem c4_bw_filter_calibration_restore (s0 : CalState) (btxcal : Bool) :
    (rt2800_bw_filter_calibration s0 btxcal).rfb5 0 = s0.rfb5 0 ∧
    (rt2800_bw_filter_calibration s0 btxcal).rfb5 1 = s0.rfb5 1 ∧
    (rt2800_bw_filter_calibration s0 btxcal).rfb5 3 = s0.rfb5 3 ∧
    (rt2800_bw_filter_calibration s0 btxcal).rfb5 4 = s0.rfb5 4 ∧
    (rt2800_bw_filter_calibration s0 btxcal).rfb5 5 = s0.rfb5 5 ∧
    (rt2800_bw_filter_calibration s0 btxcal).rfb5 6 = s0.rfb5 6 ∧
    (rt2800_bw_filter_calibration s0 btxcal).rfb5 7 = s0.rfb5 7 ∧
    (rt2800_bw_filter_calibration s0 btxcal).rfb5 8 = s0.rfb5 8 ∧
    (rt2800_bw_filter_calibration s0 btxcal).rfb5 17 = s0.rfb5 17 ∧
    (rt2800_bw_filter_calibration s0 btxcal).rfb5 18 = s0.rfb5 18 ∧
    (rt2800_bw_filter_calibration s0 btxcal).rfb5 19 = s0.rfb5 19 ∧
    (rt2800_bw_filter_calibration s0 btxcal).rfb5 20 = s0.rfb5 20 ∧
    (rt2800_bw_filter_calibration s0 btxcal).rfb5 37 = s0.rfb5 37 ∧
    (rt2800_bw_filter_calibration s0 btxcal).rfb5 38 = s0.rfb5 38 ∧
    (rt2800_bw_filter_calibration s0 btxcal).rfb5 39 = s0.rfb5 39 ∧
    (rt2800_bw_filter_calibration s0 btxcal).rfb5 40 = s0.rfb5 40 ∧
    (rt2800_bw_filter_calibration s0 btxcal).rfb5 41 = s0.rfb5 41 ∧
    (rt2800_bw_filter_calibration s0 btxcal).rfb5 42 = s0.rfb5 42 ∧
    (rt2800_bw_filter_calibration s0 btxcal).rfb5 43 = s0.rfb5 43 ∧
    (rt2800_bw_filter_calibration s0 btxcal).rfb5 44 = s0.rfb5 44 ∧
    (rt2800_bw_filter_calibration s0 btxcal).rfb5 45 = s0.rfb5 45 ∧
    (rt2800_bw_filter_calibration s0 btxcal).rfb5 46 = s0.rfb5 46 ∧
    (rt2800_bw_filter_calibration s0 btxcal).rfb5 58 = s0.rfb5 58 ∧
    (rt2800_bw_filter_calibration s0 btxcal).rfb5 59 = s0.rfb5 59 ∧
    (rt2800_bw_filter_calibration s0 btxcal).bbp 23 = s0.bbp 23 ∧
    (rt2800_bw_filter_calibration s0 btxcal).dcoc 0 = s0.dcoc 0 ∧
    (rt2800_bw_filter_calibration s0 btxcal).dcoc 2 = s0.dcoc 2 ∧
    (rt2800_bw_filter_calibration s0 btxcal).mac RF_CONTROL0 = s0.mac RF_CONTROL0 ∧
    (rt2800_bw_filter_calibration s0 btxcal).mac RF_BYPASS0 = s0.mac RF_BYPASS0 ∧
    (if btxcal then
      (rt2800_bw_filter_calibration s0 btxcal).txCal20 ≤ 0x3f ∧ (rt2800_bw_filter_calibration s0 btxcal).txCal40 ≤ 0x3f ∧
      (rt2800_bw_filter_calibration s0 btxcal).rxCal20 = s0.rxCal20 ∧ (rt2800_bw_filter_calibration s0 btxcal).rxCal40 = s0.rxCal40
    else
      (rt2800_bw_filter_calibration s0 btxcal).rxCal20 ≤ 0x3f ∧ (rt2800_bw_filter_calibration s0 btxcal).rxCal40 ≤ 0x3f ∧
      (rt2800_bw_filter_calibration s0 btxcal).txCal20 = s0.txCal20 ∧ (rt2800_bw_filter_calibration s0 btxcal).txCal40 = s0.txCal40) := by
  unfold rt2800_bw_filter_calibration
  have hrfb := calibRestore_rfb5 (calibSaves s0)
    (calibMiddle btxcal (calBbpWrite (calBbpWrite s0 158 0) 158 2))
  have hb23 := calibRestore_bbp23 (calibSaves s0)
    (calibMiddle btxcal (calBbpWrite (calBbpWrite s0 158 0) 158 2))
  have hdcoc := calibRestore_dcoc (calibSaves s0)
    (calibMiddle btxcal (calBbpWrite (calBbpWrite s0 158 0) 158 2))
  have hmac := calibRestore_mac (calibSaves s0)
    (calibMiddle btxcal (calBbpWrite (calBbpWrite s0 158 0) 158 2))
  have hdrv := calibRestore_drv (calibSaves s0)
    (calibMiddle btxcal (calBbpWrite (calBbpWrite s0 158 0) 158 2))
  rw [hrfb, hb23, hdcoc.1, hdcoc.2, hmac.1, hmac.2,
    hdrv.1, hdrv.2.1, hdrv.2.2.1, hdrv.2.2.2]
  simp only [calibSaves]
  simp [Function.update_apply]
  cases btxcal with
  | true =>
    rw [if_pos rfl]
    have h := calibMiddle_true (calBbpWrite (calBbpWrite s0 158 0) 158 2)
    simpa using h
  | false =>
    rw [if_neg (by simp)]
    have h := calibMiddle_false (calBbpWrite (calBbpWrite s0 158 0) 158 2)
    simpa using h
